import Mathlib

/-!
Verification of the AFP (Advanced Function Presentation) stream parser.

This file gives a shallow embedding of the parser package (parser.py,
fields.py, triplets.py, functions.py, exceptions.py) and proves properties
of the embedded functions.  Python byte strings are modelled as `List Nat`
(every element below 256 in any real input), Python ints as `Int`/`Nat`,
Python dicts (which preserve insertion order) as ordered association lists,
and Python exceptions as an error type threaded through an explicit result
monad.  The unbounded `while` loops of the source are modelled with an
explicit fuel argument; `Res.spin` is returned when the fuel runs out, so
`(∀ fuel, f fuel x = .spin)` proves that the source loop does not terminate
on input `x`.
-/

namespace AFP

/-! ### Decimal and hexadecimal rendering (Python `str.format`) -/

/-- The character for a decimal digit (`0 ≤ n < 10`). -/
def digitChar (n : Nat) : Char := Char.ofNat (48 + n)

/-- Decimal digits of `n`, least significant first; `fuel` bounds the
number of digits (any `fuel > n` is enough). -/
def toDigitsRevAux : Nat → Nat → List Nat
  | 0, _ => []
  | fuel+1, n => if n < 10 then [n] else (n % 10) :: toDigitsRevAux fuel (n / 10)

/-- Decimal digits of `n`, least significant first. -/
def toDigitsRev (n : Nat) : List Nat := toDigitsRevAux (n + 1) n

/-- Decimal rendering of a natural number, as Python `str` / `'{0}'.format`. -/
def decRepr (n : Nat) : String := ⟨((toDigitsRev n).reverse).map digitChar⟩

/-- Decimal rendering of an integer. -/
def decReprInt (i : Int) : String :=
  if i < 0 then "-" ++ decRepr i.natAbs else decRepr i.toNat

/-- The character for an uppercase hexadecimal digit (`0 ≤ n < 16`). -/
def hexDigitChar (n : Nat) : Char :=
  if n < 10 then Char.ofNat (48 + n) else Char.ofNat (55 + n)

/-- Hexadecimal digits of `n`, least significant first; `fuel` bounds the
number of digits (any `fuel > n` is enough). -/
def toHexDigitsRevAux : Nat → Nat → List Nat
  | 0, _ => []
  | fuel+1, n => if n < 16 then [n] else (n % 16) :: toHexDigitsRevAux fuel (n / 16)

/-- Hexadecimal digits of `n`, least significant first. -/
def toHexDigitsRev (n : Nat) : List Nat := toHexDigitsRevAux (n + 1) n

/-- Uppercase hexadecimal rendering, as Python `'{0:X}'.format`. -/
def hexRepr (n : Nat) : String := ⟨((toHexDigitsRev n).reverse).map hexDigitChar⟩

/-- Uppercase zero-padded hexadecimal rendering, as Python `'{0:0wX}'.format`. -/
def hexReprPad (width : Nat) (n : Nat) : String :=
  let ds := (toHexDigitsRev n).reverse.map hexDigitChar
  ⟨List.replicate (width - ds.length) '0' ++ ds⟩

/-- Python `repr` of a list of ints, e.g. `[1, 2, 3]`. -/
def pyListRepr (l : List Nat) : String :=
  "[" ++ String.intercalate ", " (l.map decRepr) ++ "]"

/-! ### EBCDIC-CP-BE decoding and Python `str.strip` -/

/-- The decoding table of the Python codec `EBCDIC-CP-BE` (code page 500):
entry `b` is the Unicode code point of byte `b`. -/
def EBCDIC_CP_BE_TABLE : List Nat :=
  [0, 1, 2, 3, 156, 9, 134, 127, 151, 141, 142, 11, 12, 13, 14, 15,
   16, 17, 18, 19, 157, 133, 8, 135, 24, 25, 146, 143, 28, 29, 30, 31,
   128, 129, 130, 131, 132, 10, 23, 27, 136, 137, 138, 139, 140, 5, 6, 7,
   144, 145, 22, 147, 148, 149, 150, 4, 152, 153, 154, 155, 20, 21, 158, 26,
   32, 160, 226, 228, 224, 225, 227, 229, 231, 241, 91, 46, 60, 40, 43, 33,
   38, 233, 234, 235, 232, 237, 238, 239, 236, 223, 93, 36, 42, 41, 59, 94,
   45, 47, 194, 196, 192, 193, 195, 197, 199, 209, 166, 44, 37, 95, 62, 63,
   248, 201, 202, 203, 200, 205, 206, 207, 204, 96, 58, 35, 64, 39, 61, 34,
   216, 97, 98, 99, 100, 101, 102, 103, 104, 105, 171, 187, 240, 253, 254, 177,
   176, 106, 107, 108, 109, 110, 111, 112, 113, 114, 170, 186, 230, 184, 198, 164,
   181, 126, 115, 116, 117, 118, 119, 120, 121, 122, 161, 191, 208, 221, 222, 174,
   162, 163, 165, 183, 169, 167, 182, 188, 189, 190, 172, 124, 175, 168, 180, 215,
   123, 65, 66, 67, 68, 69, 70, 71, 72, 73, 173, 244, 246, 242, 243, 245,
   125, 74, 75, 76, 77, 78, 79, 80, 81, 82, 185, 251, 252, 249, 250, 255,
   92, 247, 83, 84, 85, 86, 87, 88, 89, 90, 178, 212, 214, 210, 211, 213,
   48, 49, 50, 51, 52, 53, 54, 55, 56, 57, 179, 219, 220, 217, 218, 159]

/-- Decode one byte with the `EBCDIC-CP-BE` codec. -/
def ebcdicChar (b : Nat) : Char := Char.ofNat (EBCDIC_CP_BE_TABLE.getD b 0)

/-- Python `str.isspace` restricted to the Latin-1 range, which contains the
image of the `EBCDIC-CP-BE` decoding table. -/
def pyIsSpace (c : Char) : Bool :=
  c.toNat ∈ [9, 10, 11, 12, 13, 28, 29, 30, 31, 32, 133, 160]

/-- Python `str.strip` (strip leading and trailing whitespace). -/
def pyStrip (s : List Char) : List Char :=
  ((s.dropWhile pyIsSpace).reverse.dropWhile pyIsSpace).reverse

/-! ### exceptions.py -/

/-- The concrete subclasses of `ParseError` in exceptions.py, together with
the Python built-in exceptions `KeyError` and `TypeError` (which the parser
can also raise, e.g. on a missing dict key). -/
inductive PError where
  | EOFWhileReadingError (msg : String)
  | InvalidStructuredFieldError (msg : String)
  | RequiredParameterMissingError (msg : String)
  | EOSWhileReadingError (msg : String)
  | UnrecognizedStructuredFieldError (msg : String)
  | PaddingNotImplementedError (msg : String)
  | InvalidTripletError (msg : String)
  | UnrecognizedTripletError (msg : String)
  | InvalidControlSequenceError (msg : String)
  | UnknownFunctionError (msg : String)
  | RepeatingGroupError (msg : String)
  | UnrecognizedIdentifierCodeError (msg : String)
  | IncompleteParameterError (msg : String)
  | KeyError (key : String)
  | TypeError (msg : String)
deriving Repr, DecidableEq

/-- The class attribute `modca_code` of each exception class. -/
def PError.modca_code : PError → Nat
  | .RequiredParameterMissingError _ => 0x04
  | .UnrecognizedStructuredFieldError _ => 0x10
  | .UnrecognizedTripletError _ => 0x10
  | .UnrecognizedIdentifierCodeError _ => 0x40
  | .IncompleteParameterError _ => 0x02
  | _ => 0x00

/-- The message of an exception. -/
def PError.msg : PError → String
  | .EOFWhileReadingError m | .InvalidStructuredFieldError m
  | .RequiredParameterMissingError m | .EOSWhileReadingError m
  | .UnrecognizedStructuredFieldError m | .PaddingNotImplementedError m
  | .InvalidTripletError m | .UnrecognizedTripletError m
  | .InvalidControlSequenceError m | .UnknownFunctionError m
  | .RepeatingGroupError m | .UnrecognizedIdentifierCodeError m
  | .IncompleteParameterError m | .KeyError m | .TypeError m => m

/-- `ParseError.__str__` for an exception whose `field_no` and
`field_start_offset` are still `None`: the message, prefixed with the
MO:DCA code when that is non-zero. -/
def PError.render (e : PError) : String :=
  if e.modca_code = 0 then e.msg
  else "0x" ++ hexReprPad 2 e.modca_code ++ " " ++ e.msg

/-- The result of running a piece of the parser: a value, a raised
exception, or `spin` when the modelling fuel ran out (the source loop has
not terminated within the given number of steps). -/
inductive Res (α : Type) where
  | ok (a : α)
  | err (e : PError)
  | spin
deriving Repr

/-! ### parser.py: configuration and the byte readers -/

/-- `ParserConfig` from parser.py. -/
structure ParserConfig where
  allow_unknown_fields : Bool := false
  allow_unknown_triplets : Bool := false
  allow_unknown_functions : Bool := false
  strict : Bool := false
deriving Repr, DecidableEq

/-- A binary file open for reading: the bytes and the current position. -/
structure PFile where
  data : List Nat
  pos : Nat
deriving Repr, DecidableEq

/-- Python `f.read(n)`: up to `n` bytes from the current position (all
remaining bytes when `n` is negative), advancing the position. -/
def PFile.read (f : PFile) (n : Int) : List Nat × PFile :=
  let avail := f.data.drop f.pos
  let s := if n < 0 then avail else avail.take n.toNat
  (s, { f with pos := f.pos + s.length })

/-- `read_bytes(f, n)` from parser.py. -/
def read_bytes (f : PFile) (n : Int) : Except PError (Option (List Nat) × PFile) :=
  let (s, f') := f.read n
  if s.length = 0 then .ok (none, f')
  else if (s.length : Int) ≠ n then
    .error (.EOFWhileReadingError "Unexpected EOF while reading file")
  else .ok (some s, f')

/-- `read_byte(f)` from parser.py. -/
def read_byte (f : PFile) : Except PError (Option Nat × PFile) :=
  match read_bytes f 1 with
  | .error e => .error e
  | .ok (none, f') => .ok (none, f')
  | .ok (some b, f') => .ok (some (b.getD 0 0), f')

/-- `read_ubin(f, n)` from parser.py. -/
def read_ubin (f : PFile) (n : Int) : Except PError (Option Nat × PFile) :=
  match read_bytes f n with
  | .error e => .error e
  | .ok (none, f') => .ok (none, f')
  | .ok (some b, f') => .ok (some (b.foldl (fun u b => (u <<< 8) + b) 0), f')

/-! ### parser.py: the buffer parsers -/

/-- The slice `[data[i] for i in range(offset, offset + n)]`, in the
in-range case (the callers below only evaluate it after checking
`offset + n ≤ len(data)` and `offset < len(data)`; an empty range gives
an empty list). -/
def pySlice (data : List Nat) (offset : Nat) (n : Int) : List Nat :=
  if n ≤ 0 then [] else (data.drop offset).take n.toNat

/-- `parse_bytes(data, n, offset)` from parser.py.  An `n` of zero means
read the rest of the buffer. -/
def parse_bytes (data : List Nat) (n : Int) (offset : Nat) :
    Except PError (Option (List Nat)) :=
  let n := if n = 0 then (data.length : Int) - offset else n
  if offset ≥ data.length then .ok none
  else if (offset : Int) + n > data.length then
    .error (.EOSWhileReadingError
      ("Out of data while parsing " ++ decReprInt n ++ " byte(s) from offset "
        ++ decRepr offset ++ " of " ++ pyListRepr data))
  else .ok (some (pySlice data offset n))

/-- `parse_ubin(data, n, offset)` from parser.py. -/
def parse_ubin (data : List Nat) (n : Int) (offset : Nat) :
    Except PError (Option Nat) :=
  match parse_bytes data n offset with
  | .error e => .error e
  | .ok none => .ok none
  | .ok (some b) => .ok (some (b.foldl (fun u b => (u <<< 8) + b) 0))

/-- `parse_sbin(data, n, offset)` from parser.py: two's-complement sign
extension on top of `parse_ubin`.  (The sign test `i & (1 << (n*8 - 1))`
is only reached with `n ≥ 1`; all `sbin` parameters of the syntax tables
have length 2 or 3.) -/
def parse_sbin (data : List Nat) (n : Int) (offset : Nat) :
    Except PError (Option Int) :=
  match parse_ubin data n offset with
  | .error e => .error e
  | .ok none => .ok none
  | .ok (some i) =>
    if n ≤ 0 then .error (.TypeError "negative shift count")
    else if i.testBit (8 * n.toNat - 1) then
      .ok (some ((i : Int) - (1 <<< (8 * n.toNat) : Nat)))
    else .ok (some (i : Int))

/-- `parse_code(data, n, offset)` from parser.py. -/
def parse_code (data : List Nat) (n : Int) (offset : Nat) :
    Except PError (Option Nat) :=
  parse_ubin data n offset

/-- `parse_chars(data, n, offset)` from parser.py: EBCDIC-CP-BE decode,
then strip. -/
def parse_chars (data : List Nat) (n : Int) (offset : Nat) :
    Except PError (Option String) :=
  match parse_bytes data n offset with
  | .error e => .error e
  | .ok none => .ok none
  | .ok (some b) => .ok (some ⟨pyStrip (b.map ebcdicChar)⟩)

/-! ### fields.py: parameter descriptors and preprocessors -/

def PTYPE_CODE : Nat := 1
def PTYPE_BYTE : Nat := 2
def PTYPE_UBIN : Nat := 3
def PTYPE_SBIN : Nat := 4
def PTYPE_CHAR : Nat := 5
def PTYPE_TRIPLET : Nat := 6
def PTYPE_PTOCA : Nat := 7

/-- The closed set of preprocessor functions of fields.py.  (In the source
they are function values; the parser compares them by identity, so an
enumeration is a faithful model.) -/
inductive Preproc where
  | next_group_length
  | this_group_length
  | suppress_if_no_extension
  | set_extension_length
deriving Repr, DecidableEq

/-- `ParameterType` from fields.py. -/
structure ParameterType where
  offset : Nat
  length : Int
  datatype : Nat
  name : String
  mandatory : Bool
  preproc : Option Preproc
deriving Repr, DecidableEq

/-- An element of a syntax: either a parameter or a nested repeating group
(in the source, a plain list of `ParameterType`s). -/
inductive SynElem where
  | P (p : ParameterType)
  | G (g : List ParameterType)
deriving Repr, DecidableEq

-- Parameter names
def PNAME_EXCEPTIONS : String := "_exceptions"
def PNAME_REPEATING_GROUP : String := "RepeatingGroup"
def PNAME_EXT_DATA : String := "ExtData"
def PNAME_EXT_LENGTH : String := "ExtLength"
def PNAME_FLAG_BYTE : String := "FlagByte"
def PNAME_SF_LENGTH : String := "SFLength"
def PNAME_SF_TYPE_ID : String := "SFTypeID"
def PNAME_TRIPLETS : String := "Triplets"
def PNAME_T_ID : String := "Tid"
def PNAME_T_LENGTH : String := "Tlength"
def PNAME_CS_LENGTH : String := "LENGTH"
def PNAME_CS_TYPE : String := "TYPE"

def CARRIAGE_CONTROL_CHAR : Nat := 0x5A
def PTX_ESCAPE_SEQUENCE : Nat := 0x2BD3
def MODCA_CLASS_CODE : Nat := 0xD3

/-- `sfi_ext_flag` from fields.py. -/
def sfi_ext_flag (b : Nat) : Bool := b &&& 0b10000000 > 0

/-- `sfi_seg_flag` from fields.py. -/
def sfi_seg_flag (b : Nat) : Bool := b &&& 0b00100000 > 0

/-- `sfi_pad_flag` from fields.py. -/
def sfi_pad_flag (b : Nat) : Bool := b &&& 0b00001000 > 0

/-- `syntax_length(syntax)` from parser.py: the summed length of the
parameters, or zero as soon as one is optional or has length 0 (the
source returns 0 early from inside its loop). -/
def syntax_length_go : List ParameterType → Option Int
  | [] => some 0
  | p :: ps =>
    if ¬p.mandatory ∨ p.length = 0 then none
    else (syntax_length_go ps).map (p.length + ·)

def syntax_length (stx : List ParameterType) : Int :=
  (syntax_length_go stx).getD 0

/-! ### fields.py: the structured-field syntax tables -/

/-- Structured Field Introducer. -/
def SYNTAX_SFI : List SynElem := [
  .P ⟨0,  3, PTYPE_CODE, PNAME_SF_TYPE_ID, true, none⟩,
  .P ⟨3,  1, PTYPE_BYTE, PNAME_FLAG_BYTE,  true, none⟩,
  .P ⟨4,  2, PTYPE_BYTE, "Reserved",       true, none⟩,
  .P ⟨6,  1, PTYPE_UBIN, PNAME_EXT_LENGTH, true, some .suppress_if_no_extension⟩,
  .P ⟨7,  0, PTYPE_BYTE, PNAME_EXT_DATA,   true, some .set_extension_length⟩]

/-- Any structured field not explicitly defined. -/
def SYNTAX_FIELD_RAW : List SynElem := [
  .P ⟨0,  0, PTYPE_BYTE, "Data", false, none⟩]

def SYNTAX_FIELD_BAG : List SynElem := [
  .P ⟨0,  8, PTYPE_CHAR, "AEGName", false, none⟩,
  .P ⟨8,  0, PTYPE_TRIPLET, PNAME_TRIPLETS, false, none⟩]

def SYNTAX_FIELD_BDG : List SynElem := [
  .P ⟨0,  8, PTYPE_CHAR, "DEGName", false, none⟩,
  .P ⟨8,  0, PTYPE_TRIPLET, PNAME_TRIPLETS, false, none⟩]

def SYNTAX_FIELD_BDI : List SynElem := [
  .P ⟨0,  8, PTYPE_CHAR, "IndxName", false, none⟩,
  .P ⟨8,  0, PTYPE_TRIPLET, PNAME_TRIPLETS, false, none⟩]

def SYNTAX_FIELD_BDT : List SynElem := [
  .P ⟨0,  8, PTYPE_CHAR, "DocName", true, none⟩,
  .P ⟨8,  2, PTYPE_BYTE, "Reserved", true, none⟩,
  .P ⟨10, 0, PTYPE_TRIPLET, PNAME_TRIPLETS, true, none⟩]

def SYNTAX_FIELD_BFG : List SynElem := [
  .P ⟨0,  8, PTYPE_CHAR, "FEGName", false, none⟩]

def SYNTAX_FIELD_BFM : List SynElem := [
  .P ⟨0,  8, PTYPE_CHAR, "FMName", false, none⟩,
  .P ⟨8,  0, PTYPE_TRIPLET, PNAME_TRIPLETS, false, none⟩]

def SYNTAX_FIELD_BMM : List SynElem := [
  .P ⟨0,  8, PTYPE_CHAR, "MMName", true, none⟩,
  .P ⟨8,  0, PTYPE_TRIPLET, PNAME_TRIPLETS, false, none⟩]

def SYNTAX_FIELD_BNG : List SynElem := [
  .P ⟨0,  8, PTYPE_CHAR, "PGrpName", true, none⟩,
  .P ⟨8,  0, PTYPE_TRIPLET, PNAME_TRIPLETS, false, none⟩]

def SYNTAX_FIELD_BPG : List SynElem := [
  .P ⟨0,  8, PTYPE_CHAR, "PageName", false, none⟩,
  .P ⟨8,  0, PTYPE_TRIPLET, PNAME_TRIPLETS, false, none⟩]

def SYNTAX_FIELD_BPT : List SynElem := [
  .P ⟨0,  8, PTYPE_CHAR, "PTdoName", false, none⟩,
  .P ⟨8,  0, PTYPE_TRIPLET, PNAME_TRIPLETS, false, none⟩]

def SYNTAX_FIELD_BRG : List SynElem := [
  .P ⟨0,  8, PTYPE_CHAR, "RGrpName", false, none⟩,
  .P ⟨8,  0, PTYPE_TRIPLET, PNAME_TRIPLETS, false, none⟩]

def SYNTAX_FIELD_BRS : List SynElem := [
  .P ⟨0,  8, PTYPE_CHAR, "RSName", true, none⟩,
  .P ⟨8,  2, PTYPE_BYTE, "Reserved", true, none⟩,
  .P ⟨10, 0, PTYPE_TRIPLET, PNAME_TRIPLETS, true, none⟩]

def SYNTAX_FIELD_CTC : List SynElem := [
  .P ⟨0, 10, PTYPE_BYTE, "ConData", true, none⟩]

def SYNTAX_FIELD_EAG : List SynElem := [
  .P ⟨0,  8, PTYPE_CHAR, "AEGName", false, none⟩]

def SYNTAX_FIELD_EDG : List SynElem := [
  .P ⟨0,  8, PTYPE_CHAR, "DEGName", false, none⟩]

def SYNTAX_FIELD_EDI : List SynElem := [
  .P ⟨0,  8, PTYPE_CHAR, "IndxName", false, none⟩,
  .P ⟨8,  0, PTYPE_TRIPLET, PNAME_TRIPLETS, false, none⟩]

def SYNTAX_FIELD_EDT : List SynElem := [
  .P ⟨0,  8, PTYPE_CHAR, "DocName", false, none⟩,
  .P ⟨8,  0, PTYPE_TRIPLET, PNAME_TRIPLETS, false, none⟩]

def SYNTAX_FIELD_EFG : List SynElem := [
  .P ⟨0,  8, PTYPE_CHAR, "FEGName", false, none⟩]

def SYNTAX_FIELD_EFM : List SynElem := [
  .P ⟨0,  8, PTYPE_CHAR, "FMName", false, none⟩]

def SYNTAX_FIELD_EMM : List SynElem := [
  .P ⟨0,  8, PTYPE_CHAR, "MMName", false, none⟩]

def SYNTAX_FIELD_ENG : List SynElem := [
  .P ⟨0,  8, PTYPE_CHAR, "PGrpName", false, none⟩,
  .P ⟨8,  0, PTYPE_TRIPLET, PNAME_TRIPLETS, false, none⟩]

def SYNTAX_FIELD_EPG : List SynElem := [
  .P ⟨0,  8, PTYPE_CHAR, "PageName", false, none⟩,
  .P ⟨8,  0, PTYPE_TRIPLET, PNAME_TRIPLETS, false, none⟩]

def SYNTAX_FIELD_EPT : List SynElem := [
  .P ⟨0,  8, PTYPE_CHAR, "PTdoName", false, none⟩,
  .P ⟨8,  0, PTYPE_TRIPLET, PNAME_TRIPLETS, false, none⟩]

def SYNTAX_FIELD_ERG : List SynElem := [
  .P ⟨0,  8, PTYPE_CHAR, "RGrpName", false, none⟩,
  .P ⟨8,  0, PTYPE_TRIPLET, PNAME_TRIPLETS, false, none⟩]

def SYNTAX_FIELD_ERS : List SynElem := [
  .P ⟨0,  8, PTYPE_CHAR, "RSName", false, none⟩]

def SYNTAX_FIELD_IEL : List SynElem := [
  .P ⟨0,  0, PTYPE_TRIPLET, PNAME_TRIPLETS, true, none⟩]

def SYNTAX_FIELD_IPO : List SynElem := [
  .P ⟨0,  8, PTYPE_CHAR, "OvlyName", true, none⟩,
  .P ⟨8,  3, PTYPE_SBIN, "XolOset", true, none⟩,
  .P ⟨11, 3, PTYPE_SBIN, "YolOset", true, none⟩,
  .P ⟨14, 2, PTYPE_CODE, "OvlyOrent", false, none⟩,
  .P ⟨16, 0, PTYPE_TRIPLET, PNAME_TRIPLETS, false, none⟩]

def SYNTAX_FIELD_IPS : List SynElem := [
  .P ⟨0,  8, PTYPE_CHAR, "PsegName", true, none⟩,
  .P ⟨8,  3, PTYPE_SBIN, "XpsOset", true, none⟩,
  .P ⟨11, 3, PTYPE_SBIN, "YpsOset", true, none⟩,
  .P ⟨14, 0, PTYPE_TRIPLET, PNAME_TRIPLETS, false, none⟩]

def SYNTAX_FIELD_MCC : List SynElem := [
  .G [⟨0, 2, PTYPE_UBIN, "Startnum", true, none⟩,
      ⟨2, 2, PTYPE_UBIN, "Stopnum", true, none⟩,
      ⟨4, 1, PTYPE_BYTE, "Reserved", true, none⟩,
      ⟨5, 1, PTYPE_CODE, "MMCid", true, none⟩]]

def SYNTAX_FIELD_MCF : List SynElem := [
  .G [⟨0, 2, PTYPE_UBIN, "RGLength", true, some .this_group_length⟩,
      ⟨2, 0, PTYPE_TRIPLET, PNAME_TRIPLETS, true, none⟩]]

def SYNTAX_FIELD_MCF_1 : List SynElem := [
  .P ⟨0, 1, PTYPE_UBIN, "RGLength", true, some .next_group_length⟩,
  .P ⟨1, 3, PTYPE_BYTE, "Reserved", true, none⟩,
  .G [⟨0,  1, PTYPE_UBIN, "CFLid", true, none⟩,
      ⟨1,  1, PTYPE_BYTE, "Reserved", true, none⟩,
      ⟨2,  1, PTYPE_CODE, "Sectid", true, none⟩,
      ⟨3,  1, PTYPE_BYTE, "Reserved", true, none⟩,
      ⟨4,  8, PTYPE_CHAR, "CFName", true, none⟩,
      ⟨12, 8, PTYPE_CHAR, "CPName", true, none⟩,
      ⟨20, 8, PTYPE_CHAR, "FCSName", true, none⟩,
      ⟨28, 2, PTYPE_CODE, "CharRot", false, none⟩]]

def SYNTAX_FIELD_MDD : List SynElem := [
  .P ⟨0,  1, PTYPE_CODE, "XmBase", true, none⟩,
  .P ⟨1,  1, PTYPE_CODE, "YmBase", true, none⟩,
  .P ⟨2,  2, PTYPE_UBIN, "XmUnits", true, none⟩,
  .P ⟨4,  2, PTYPE_UBIN, "YmUnits", true, none⟩,
  .P ⟨6,  3, PTYPE_UBIN, "XmSize", true, none⟩,
  .P ⟨9,  3, PTYPE_UBIN, "YmSize", true, none⟩,
  .P ⟨12, 1, PTYPE_BYTE, "MDDFlgs", true, none⟩,
  .P ⟨13, 0, PTYPE_TRIPLET, PNAME_TRIPLETS, false, none⟩]

def SYNTAX_FIELD_MMC : List SynElem := [
  .P ⟨0, 1, PTYPE_CODE, "MMCid", true, none⟩,
  .P ⟨1, 1, PTYPE_CODE, "Constant", true, none⟩,
  .P ⟨2, 0, PTYPE_BYTE, "Keywords", false, none⟩]

def SYNTAX_FIELD_MPO : List SynElem := [
  .G [⟨0, 2, PTYPE_UBIN, "RGLength", true, some .this_group_length⟩,
      ⟨2, 0, PTYPE_TRIPLET, PNAME_TRIPLETS, true, none⟩]]

def SYNTAX_FIELD_NOP : List SynElem := [
  .P ⟨0, 0, PTYPE_BYTE, "UndfData", false, none⟩]

def SYNTAX_FIELD_PGD : List SynElem := [
  .P ⟨0,  1, PTYPE_CODE, "XpgBase", true, none⟩,
  .P ⟨1,  1, PTYPE_CODE, "YpgBase", true, none⟩,
  .P ⟨2,  2, PTYPE_UBIN, "XpgUnits", true, none⟩,
  .P ⟨4,  2, PTYPE_UBIN, "YpgUnits", true, none⟩,
  .P ⟨6,  3, PTYPE_UBIN, "XpgSize", true, none⟩,
  .P ⟨9,  3, PTYPE_UBIN, "YpgSize", true, none⟩,
  .P ⟨12, 3, PTYPE_BYTE, "Reserved", true, none⟩,
  .P ⟨15, 0, PTYPE_TRIPLET, PNAME_TRIPLETS, false, none⟩]

def SYNTAX_FIELD_PGP_1 : List SynElem := [
  .P ⟨0, 3, PTYPE_UBIN, "XmOset", true, none⟩,
  .P ⟨3, 3, PTYPE_UBIN, "YmOset", true, none⟩]

def SYNTAX_FIELD_PTD : List SynElem := [
  .P ⟨0,  1, PTYPE_CODE, "XPBASE", true, none⟩,
  .P ⟨1,  1, PTYPE_CODE, "YPBASE", true, none⟩,
  .P ⟨2,  2, PTYPE_UBIN, "XPUNITVL", true, none⟩,
  .P ⟨4,  2, PTYPE_UBIN, "YPUNITVL", true, none⟩,
  .P ⟨6,  3, PTYPE_UBIN, "XPEXTENT", true, none⟩,
  .P ⟨9,  3, PTYPE_UBIN, "YPEXTENT", true, none⟩,
  .P ⟨12, 2, PTYPE_BYTE, "TEXTFLAGS", false, none⟩,
  .P ⟨14, 0, PTYPE_BYTE, "TXTCONDS", false, none⟩]

def SYNTAX_FIELD_PTD_1 : List SynElem := [
  .P ⟨0,  1, PTYPE_CODE, "XptBase", true, none⟩,
  .P ⟨1,  1, PTYPE_CODE, "YptBase", true, none⟩,
  .P ⟨2,  2, PTYPE_UBIN, "XptUnits", true, none⟩,
  .P ⟨4,  2, PTYPE_UBIN, "YptUnits", true, none⟩,
  .P ⟨6,  2, PTYPE_UBIN, "XptSize", true, none⟩,
  .P ⟨8,  2, PTYPE_UBIN, "YptSize", true, none⟩,
  .P ⟨10, 2, PTYPE_BYTE, "Reserved", false, none⟩]

def SYNTAX_FIELD_PTX : List SynElem := [
  .P ⟨0, 0, PTYPE_PTOCA, "PTOCAdat", false, none⟩]

def SYNTAX_FIELD_TLE : List SynElem := [
  .P ⟨0, 0, PTYPE_TRIPLET, PNAME_TRIPLETS, true, none⟩]

def SF_BAG : Nat := 0xD3A8C9
def SF_BDG : Nat := 0xD3A8C4
def SF_BDI : Nat := 0xD3A8A7
def SF_BDT : Nat := 0xD3A8A8
def SF_BFG : Nat := 0xD3A8C5
def SF_BFM : Nat := 0xD3A8CD
def SF_BMM : Nat := 0xD3A8CC
def SF_BNG : Nat := 0xD3A8AD
def SF_BPG : Nat := 0xD3A8AF
def SF_BPT : Nat := 0xD3A89B
def SF_BRG : Nat := 0xD3A8C6
def SF_BRS : Nat := 0xD3A8CE
def SF_CTC : Nat := 0xD3A79B
def SF_EAG : Nat := 0xD3A9C9
def SF_EDG : Nat := 0xD3A9C4
def SF_EDI : Nat := 0xD3A9A7
def SF_EDT : Nat := 0xD3A9A8
def SF_EFG : Nat := 0xD3A9C5
def SF_EFM : Nat := 0xD3A9CD
def SF_EMM : Nat := 0xD3A9CC
def SF_ENG : Nat := 0xD3A9AD
def SF_EPG : Nat := 0xD3A9AF
def SF_EPT : Nat := 0xD3A99B
def SF_ERG : Nat := 0xD3A9C6
def SF_ERS : Nat := 0xD3A9CE
def SF_IEL : Nat := 0xD3B2A7
def SF_IPO : Nat := 0xD3AFD8
def SF_IPS : Nat := 0xD3AF5F
def SF_MCC : Nat := 0xD3A288
def SF_MCF : Nat := 0xD3AB8A
def SF_MCF_1 : Nat := 0xD3B18A
def SF_MDD : Nat := 0xD3A688
def SF_MMC : Nat := 0xD3A788
def SF_MPO : Nat := 0xD3ABD8
def SF_NOP : Nat := 0xD3EEEE
def SF_PGD : Nat := 0xD3A6AF
def SF_PGP_1 : Nat := 0xD3ACAF
def SF_PTD : Nat := 0xD3B19B
def SF_PTD_1 : Nat := 0xD3A69B
def SF_PTX : Nat := 0xD3EE9B
def SF_TLE : Nat := 0xD3A090

/-- `StructuredFieldType` from fields.py (its `syntax` field is here
called `syn`). -/
structure StructuredFieldType where
  abbreviation : String
  name : String
  syn : Option (List SynElem)
deriving Repr, DecidableEq

def SF_TYPES : List (Nat × StructuredFieldType) := [
  (SF_BAG,   ⟨"BAG",   "Begin Active Environment Group",             some SYNTAX_FIELD_BAG⟩),
  (SF_BDG,   ⟨"BDG",   "Begin Document Environment Group",           some SYNTAX_FIELD_BDG⟩),
  (SF_BDI,   ⟨"BDI",   "Begin Document Index",                       some SYNTAX_FIELD_BDI⟩),
  (SF_BDT,   ⟨"BDT",   "Begin Document",                             some SYNTAX_FIELD_BDT⟩),
  (SF_BFG,   ⟨"BFG",   "Begin Form Environment Group",               some SYNTAX_FIELD_BFG⟩),
  (SF_BFM,   ⟨"BFM",   "Begin Form Map",                             some SYNTAX_FIELD_BFM⟩),
  (SF_BMM,   ⟨"BMM",   "Begin Medium Map",                           some SYNTAX_FIELD_BMM⟩),
  (SF_BNG,   ⟨"BNG",   "Begin Named Page Group",                     some SYNTAX_FIELD_BNG⟩),
  (SF_BPG,   ⟨"BPG",   "Begin Page",                                 some SYNTAX_FIELD_BPG⟩),
  (SF_BPT,   ⟨"BPT",   "Begin Presentation Text Object",             some SYNTAX_FIELD_BPT⟩),
  (SF_BRG,   ⟨"BRG",   "Begin Resource Group",                       some SYNTAX_FIELD_BRG⟩),
  (SF_BRS,   ⟨"BRS",   "Begin Resource",                             some SYNTAX_FIELD_BRS⟩),
  (SF_CTC,   ⟨"CTC",   "Composed Text Control",                      some SYNTAX_FIELD_CTC⟩),
  (SF_EAG,   ⟨"EAG",   "End Active Environment Group",               some SYNTAX_FIELD_EAG⟩),
  (SF_EDG,   ⟨"EDG",   "End Document Environment Group",             some SYNTAX_FIELD_EDG⟩),
  (SF_EDI,   ⟨"EDI",   "End Document Index",                         some SYNTAX_FIELD_EDI⟩),
  (SF_EDT,   ⟨"EDT",   "End Document",                               some SYNTAX_FIELD_EDT⟩),
  (SF_EFG,   ⟨"EFG",   "End Form Environment Group",                 some SYNTAX_FIELD_EFG⟩),
  (SF_EFM,   ⟨"EFM",   "End Form Map",                               some SYNTAX_FIELD_EFM⟩),
  (SF_EMM,   ⟨"EMM",   "End Medium Map",                             some SYNTAX_FIELD_EMM⟩),
  (SF_ENG,   ⟨"ENG",   "End Named Page Group",                       some SYNTAX_FIELD_ENG⟩),
  (SF_EPG,   ⟨"EPG",   "End Page",                                   some SYNTAX_FIELD_EPG⟩),
  (SF_EPT,   ⟨"EPT",   "End Presentation Text Object",               some SYNTAX_FIELD_EPT⟩),
  (SF_ERG,   ⟨"ERG",   "End Resource Group",                         some SYNTAX_FIELD_ERG⟩),
  (SF_ERS,   ⟨"ERS",   "End Resource",                               some SYNTAX_FIELD_ERS⟩),
  (SF_IEL,   ⟨"IEL",   "Index Element",                              some SYNTAX_FIELD_IEL⟩),
  (SF_IPO,   ⟨"IPO",   "Include Page Overlay",                       some SYNTAX_FIELD_IPO⟩),
  (SF_IPS,   ⟨"IPS",   "Include Page Segment",                       some SYNTAX_FIELD_IPS⟩),
  (SF_MCC,   ⟨"MCC",   "Medium Copy Count",                          some SYNTAX_FIELD_MCC⟩),
  (SF_MCF,   ⟨"MCF",   "Map Coded Font Format 2",                    some SYNTAX_FIELD_MCF⟩),
  (SF_MCF_1, ⟨"MCF-1", "Map Coded Font Format 1",                    some SYNTAX_FIELD_MCF_1⟩),
  (SF_MDD,   ⟨"MDD",   "Medium Descriptor",                          some SYNTAX_FIELD_MDD⟩),
  (SF_MMC,   ⟨"MMC",   "Medium Modification Control",                some SYNTAX_FIELD_MMC⟩),
  (SF_MPO,   ⟨"MPO",   "Map Page Overlay",                           some SYNTAX_FIELD_MPO⟩),
  (SF_NOP,   ⟨"NOP",   "No Operation",                               some SYNTAX_FIELD_NOP⟩),
  (SF_PGD,   ⟨"PGD",   "Page Descriptor",                            some SYNTAX_FIELD_PGD⟩),
  (SF_PGP_1, ⟨"PGP-1", "Page Position Format 1",                     some SYNTAX_FIELD_PGP_1⟩),
  (SF_PTD,   ⟨"PTD",   "Presentation Text Data Descriptor Format 2", some SYNTAX_FIELD_PTD⟩),
  (SF_PTD_1, ⟨"PTD-1", "Presentation Text Data Descriptor Format 1", some SYNTAX_FIELD_PTD_1⟩),
  (SF_PTX,   ⟨"PTX",   "Presentation Text Data",                     some SYNTAX_FIELD_PTX⟩),
  (SF_TLE,   ⟨"TLE",   "Tag Logical Element",                        some SYNTAX_FIELD_TLE⟩)]

/-! ### triplets.py -/

/-- Any triplet not explicitly defined. -/
def SYNTAX_TRIPLET_RAW : List SynElem := [
  .P ⟨0, 0, PTYPE_BYTE, "Contents", true, none⟩]

def SYNTAX_TRIPLET_01 : List SynElem := [
  .P ⟨0, 2, PTYPE_CODE, "GCSGID", true, none⟩,
  .P ⟨2, 2, PTYPE_CODE, "ID", true, none⟩]

def SYNTAX_TRIPLET_02 : List SynElem := [
  .P ⟨0, 1, PTYPE_CODE, "FQNType", true, none⟩,
  .P ⟨1, 1, PTYPE_CODE, "FQNFmt", true, none⟩,
  .P ⟨2, 0, PTYPE_CHAR, "FQName", true, none⟩]

def SYNTAX_TRIPLET_18 : List SynElem := [
  .P ⟨0, 1, PTYPE_CODE, "IStype", true, none⟩,
  .P ⟨1, 2, PTYPE_CODE, "ISid", true, none⟩]

def SYNTAX_TRIPLET_21 : List SynElem := [
  .P ⟨0, 1, PTYPE_CODE, "ObjType", true, none⟩,
  .P ⟨1, 7, PTYPE_CODE, "ConData", true, none⟩]

def SYNTAX_TRIPLET_24 : List SynElem := [
  .P ⟨0, 1, PTYPE_CODE, "ResType", true, none⟩,
  .P ⟨1, 1, PTYPE_CODE, "ResLID", true, none⟩]

def SYNTAX_TRIPLET_25 : List SynElem := [
  .P ⟨0, 1, PTYPE_CODE, "ResSNum", true, none⟩]

def SYNTAX_TRIPLET_26 : List SynElem := [
  .P ⟨0, 2, PTYPE_CODE, "CharRot", true, none⟩]

def SYNTAX_TRIPLET_2D : List SynElem := [
  .P ⟨0, 4, PTYPE_UBIN, "DirByOff", true, none⟩,
  .P ⟨4, 4, PTYPE_UBIN, "DirByHi", false, none⟩]

def SYNTAX_TRIPLET_36 : List SynElem := [
  .P ⟨0, 2, PTYPE_BYTE, "Reserved", true, none⟩,
  .P ⟨2, 0, PTYPE_CHAR, "AttVal", false, none⟩]

def SYNTAX_TRIPLET_56 : List SynElem := [
  .P ⟨0, 4, PTYPE_UBIN, "PageNum", true, none⟩]

def SYNTAX_TRIPLET_57 : List SynElem := [
  .P ⟨0, 4, PTYPE_UBIN, "ByteExt", true, none⟩,
  .P ⟨4, 4, PTYPE_UBIN, "BytExtHi", true, none⟩]

def SYNTAX_TRIPLET_58 : List SynElem := [
  .P ⟨0, 4, PTYPE_UBIN, "SFOff", true, none⟩,
  .P ⟨4, 4, PTYPE_UBIN, "SFOffHi", false, none⟩]

def SYNTAX_TRIPLET_59 : List SynElem := [
  .P ⟨0, 4, PTYPE_UBIN, "SFExt", true, none⟩,
  .P ⟨4, 4, PTYPE_UBIN, "SFExtHi", false, none⟩]

def SYNTAX_TRIPLET_62 : List SynElem := [
  .P ⟨0,  1, PTYPE_CODE, "StampType", true, none⟩,
  .P ⟨1,  1, PTYPE_CODE, "THunYear", true, none⟩,
  .P ⟨2,  2, PTYPE_CODE, "TenYear", true, none⟩,
  .P ⟨4,  3, PTYPE_CODE, "Day", true, none⟩,
  .P ⟨7,  2, PTYPE_CODE, "Hour", true, none⟩,
  .P ⟨9,  2, PTYPE_CODE, "Minute", true, none⟩,
  .P ⟨11, 2, PTYPE_CODE, "Second", true, none⟩,
  .P ⟨13, 2, PTYPE_CODE, "HundSec", true, none⟩]

def SYNTAX_TRIPLET_68 : List SynElem := [
  .P ⟨0, 1, PTYPE_CODE, "MedOrient", true, none⟩]

def SYNTAX_TRIPLET_80 : List SynElem := [
  .P ⟨0, 4, PTYPE_UBIN, "SeqNum", true, none⟩,
  .P ⟨4, 4, PTYPE_UBIN, "LevNum", true, none⟩]

/-- `TripletType` from triplets.py (its `syntax` field is here `syn`). -/
structure TripletType where
  name : String
  syn : Option (List SynElem)
deriving Repr, DecidableEq

def TRIPLET_TYPES : List (Nat × TripletType) := [
  (0x01, ⟨"Coded Graphic Character Set Global Identifier", some SYNTAX_TRIPLET_01⟩),
  (0x02, ⟨"Fully Qualified Name",                          some SYNTAX_TRIPLET_02⟩),
  (0x18, ⟨"MO:DCA Interchange Set",                        some SYNTAX_TRIPLET_18⟩),
  (0x21, ⟨"Resource Object Type",                          some SYNTAX_TRIPLET_21⟩),
  (0x24, ⟨"Resource Local Identifier",                     some SYNTAX_TRIPLET_24⟩),
  (0x25, ⟨"Resource Section Number",                       some SYNTAX_TRIPLET_25⟩),
  (0x26, ⟨"Character Rotation",                            some SYNTAX_TRIPLET_26⟩),
  (0x2D, ⟨"Object Byte Offset",                            some SYNTAX_TRIPLET_2D⟩),
  (0x36, ⟨"Attribute Value",                               some SYNTAX_TRIPLET_36⟩),
  (0x56, ⟨"Medium Map Page Number",                        some SYNTAX_TRIPLET_56⟩),
  (0x57, ⟨"Object Byte Extent",                            some SYNTAX_TRIPLET_57⟩),
  (0x58, ⟨"Object Structured Field Offset",                some SYNTAX_TRIPLET_58⟩),
  (0x59, ⟨"Object Structured Field Extent",                some SYNTAX_TRIPLET_59⟩),
  (0x62, ⟨"Local Date and Time Stamp",                     some SYNTAX_TRIPLET_62⟩),
  (0x68, ⟨"Medium Orientation",                            some SYNTAX_TRIPLET_68⟩),
  (0x80, ⟨"Attribute Qualifier",                           some SYNTAX_TRIPLET_80⟩)]

/-! ### functions.py -/

/-- Any function not explicitly defined. -/
def SYNTAX_FUNCTION_RAW : List SynElem := [
  .P ⟨0, 0, PTYPE_BYTE, "DATA", true, none⟩]

def SYNTAX_FUNCTION_AMB : List SynElem := [
  .P ⟨0, 2, PTYPE_SBIN, "DSPLCMNT", true, none⟩]

def SYNTAX_FUNCTION_AMI : List SynElem := [
  .P ⟨0, 2, PTYPE_SBIN, "DSPLCMNT", true, none⟩]

def SYNTAX_FUNCTION_BSU : List SynElem := [
  .P ⟨0, 1, PTYPE_CODE, "LID", true, none⟩]

def SYNTAX_FUNCTION_DBR : List SynElem := [
  .P ⟨0, 2, PTYPE_SBIN, "RLENGTH", true, none⟩,
  .P ⟨2, 3, PTYPE_SBIN, "RWIDTH", false, none⟩]

def SYNTAX_FUNCTION_DIR : List SynElem := [
  .P ⟨0, 2, PTYPE_SBIN, "RLENGTH", true, none⟩,
  .P ⟨2, 3, PTYPE_SBIN, "RWIDTH", false, none⟩]

def SYNTAX_FUNCTION_ESU : List SynElem := [
  .P ⟨0, 1, PTYPE_CODE, "LID", true, none⟩]

def SYNTAX_FUNCTION_NOP : List SynElem := [
  .P ⟨0, 0, PTYPE_BYTE, "IGNDATA", false, none⟩]

def SYNTAX_FUNCTION_RMB : List SynElem := [
  .P ⟨0, 2, PTYPE_SBIN, "INCRMENT", true, none⟩]

def SYNTAX_FUNCTION_RMI : List SynElem := [
  .P ⟨0, 2, PTYPE_SBIN, "INCRMENT", true, none⟩]

def SYNTAX_FUNCTION_RPS : List SynElem := [
  .P ⟨0, 2, PTYPE_UBIN, "RLENGTH", true, none⟩,
  .P ⟨2, 0, PTYPE_CHAR, "RPTDATA", false, none⟩]

def SYNTAX_FUNCTION_SCFL : List SynElem := [
  .P ⟨0, 1, PTYPE_CODE, "LID", true, none⟩]

def SYNTAX_FUNCTION_STC : List SynElem := [
  .P ⟨0, 2, PTYPE_CODE, "FRGCOLOR", true, none⟩,
  .P ⟨2, 1, PTYPE_BYTE, "PRECSION", false, none⟩]

def SYNTAX_FUNCTION_STO : List SynElem := [
  .P ⟨0, 2, PTYPE_CODE, "IORNTION", true, none⟩,
  .P ⟨2, 2, PTYPE_CODE, "BORNTION", true, none⟩]

def SYNTAX_FUNCTION_SVI : List SynElem := [
  .P ⟨0, 2, PTYPE_SBIN, "INCRMENT", true, none⟩]

def SYNTAX_FUNCTION_TRN : List SynElem := [
  .P ⟨0, 0, PTYPE_CHAR, "TRNDATA", false, none⟩]

/-- `Function` from functions.py (its `syntax` field is here `syn`). -/
structure PtocaFunction where
  abbreviation : String
  name : String
  syn : Option (List SynElem)
deriving Repr, DecidableEq

def FN_INFO_AMB : PtocaFunction := ⟨"AMB", "Absolute Move Baseline", some SYNTAX_FUNCTION_AMB⟩
def FN_INFO_AMI : PtocaFunction := ⟨"AMI", "Absolute Move Inline", some SYNTAX_FUNCTION_AMI⟩
def FN_INFO_BSU : PtocaFunction := ⟨"BSU", "Begin Suppression", some SYNTAX_FUNCTION_BSU⟩
def FN_INFO_DBR : PtocaFunction := ⟨"DBR", "Draw Baseline Rule", some SYNTAX_FUNCTION_DBR⟩
def FN_INFO_DIR : PtocaFunction := ⟨"DIR", "Draw Inline Rule", some SYNTAX_FUNCTION_DIR⟩
def FN_INFO_ESU : PtocaFunction := ⟨"ESU", "End Suppression", some SYNTAX_FUNCTION_ESU⟩
def FN_INFO_RMB : PtocaFunction := ⟨"RMB", "Relative Move Baseline", some SYNTAX_FUNCTION_RMB⟩
def FN_INFO_RMI : PtocaFunction := ⟨"RMI", "Relative Move Inline", some SYNTAX_FUNCTION_RMI⟩
def FN_INFO_RPS : PtocaFunction := ⟨"RPS", "Repeat String", some SYNTAX_FUNCTION_RPS⟩
def FN_INFO_SCFL : PtocaFunction := ⟨"SCFL", "Set Coded Font Local", some SYNTAX_FUNCTION_SCFL⟩
def FN_INFO_STC : PtocaFunction := ⟨"STC", "Set Text Color", some SYNTAX_FUNCTION_STC⟩
def FN_INFO_STO : PtocaFunction := ⟨"STO", "Set Text Orientation", some SYNTAX_FUNCTION_STO⟩
def FN_INFO_SVI : PtocaFunction := ⟨"SVI", "Set Variable Space Character Increment", some SYNTAX_FUNCTION_SVI⟩
def FN_INFO_TRN : PtocaFunction := ⟨"TRN", "Transparent Data", some SYNTAX_FUNCTION_TRN⟩
def FN_INFO_NOP : PtocaFunction := ⟨"NOP", "No Operation", some SYNTAX_FUNCTION_NOP⟩

def FUNCTIONS : List (Nat × PtocaFunction) := [
  (0xD2, FN_INFO_AMB), (0xC6, FN_INFO_AMI), (0xF2, FN_INFO_BSU),
  (0xE6, FN_INFO_DBR), (0xE4, FN_INFO_DIR), (0xF4, FN_INFO_ESU),
  (0xD4, FN_INFO_RMB), (0xC8, FN_INFO_RMI), (0xEE, FN_INFO_RPS),
  (0xF0, FN_INFO_SCFL), (0x74, FN_INFO_STC), (0xF6, FN_INFO_STO),
  (0xC4, FN_INFO_SVI), (0xDA, FN_INFO_TRN), (0xF8, FN_INFO_NOP),
  (0xD3, FN_INFO_AMB), (0xC7, FN_INFO_AMI), (0xF3, FN_INFO_BSU),
  (0xE7, FN_INFO_DBR), (0xE5, FN_INFO_DIR), (0xF5, FN_INFO_ESU),
  (0xD5, FN_INFO_RMB), (0xC9, FN_INFO_RMI), (0xEF, FN_INFO_RPS),
  (0xF1, FN_INFO_SCFL), (0x75, FN_INFO_STC), (0xF7, FN_INFO_STO),
  (0xC5, FN_INFO_SVI), (0xDB, FN_INFO_TRN), (0xF9, FN_INFO_NOP)]

/-- `unchained_function` from functions.py. -/
def unchained_function (function : Nat) : Bool := function % 2 == 0

/-- `chained_function` from functions.py. -/
def chained_function (function : Nat) : Bool := !unchained_function function

/-! ### Parse-result records (ordered dicts) and parser.py helpers -/

/-- A decoded Python value held in a parse-result dict: an int, an EBCDIC
string, a list of bytes, a list of nested records (triplets, control
sequences, repeating groups), or the `_exceptions` list of
`(modca_code, str(e))` pairs. -/
inductive PyVal where
  | int (i : Int)
  | str (s : String)
  | bytes (bs : List Nat)
  | recs (rs : List (List (String × PyVal)))
  | excs (es : List (Nat × String))
deriving Repr

/-- A parse result: a Python dict, which preserves insertion order. -/
abbrev Rec := List (String × PyVal)

/-- The `param_appearance_counters` dict. -/
abbrev Counters := List (String × Nat)

/-- Python `key in d`. -/
def dictContains (r : List (String × α)) (k : String) : Bool :=
  r.any (fun kv => kv.1 == k)

/-- Python `d[key]`, as an `Option`. -/
def dictGet (r : List (String × α)) (k : String) : Option α :=
  (r.find? (fun kv => kv.1 == k)).map (·.2)

/-- Python `d[key] = v`: replace the value in place if the key is present,
else append the pair at the end (dicts preserve insertion order). -/
def dictSet (r : List (String × α)) (k : String) (v : α) : List (String × α) :=
  if dictContains r k then r.map (fun kv => if kv.1 == k then (k, v) else kv)
  else r ++ [(k, v)]

/-- `_add_param(name, value, result, param_appearance_counters)` from
parser.py.  Returns the unique name used and the updated dicts.  (The
`+= 1` on a counters entry presupposes the entry exists, as in the source:
every repeated key of `result` was itself counted by an earlier call.) -/
def _add_param (name : String) (value : PyVal) (result : Rec) (cnt : Counters) :
    String × Rec × Counters :=
  if ¬dictContains result name then
    (name, dictSet result name value, dictSet cnt name 1)
  else
    let c := (dictGet cnt name).getD 0 + 1
    let unique_name := name ++ "-" ++ decRepr c
    (unique_name, dictSet result unique_name value, dictSet cnt name c)

/-- `_add_exception(e, result)` from parser.py: append
`(e.modca_code, str(e))` to the `_exceptions` list, creating it first if
absent. -/
def _add_exception (e : PError) (result : Rec) : Rec :=
  match dictGet result PNAME_EXCEPTIONS with
  | some (.excs es) =>
    dictSet result PNAME_EXCEPTIONS (.excs (es ++ [(e.modca_code, e.render)]))
  | _ => dictSet result PNAME_EXCEPTIONS (.excs [(e.modca_code, e.render)])

/-- Python `type(value) == list` for a decoded value (byte sequences and
record lists are lists in the source). -/
def pyIsList : PyVal → Bool
  | .bytes _ => true
  | .recs _ => true
  | .excs _ => true
  | _ => false

/-- Python `len(value)` for a list-typed decoded value. -/
def pyListLength : PyVal → Nat
  | .bytes l => l.length
  | .recs l => l.length
  | .excs l => l.length
  | _ => 0

/-- The preprocessor call `param = param.preproc(result, param)` of
parse_syntax, covering the four preprocessors of fields.py.  `.ok none`
means the parameter is skipped. -/
def apply_preproc (param : ParameterType) (result : Rec) :
    Except PError (Option ParameterType) :=
  match param.preproc with
  | none => .ok (some param)
  | some .next_group_length => .ok (some param)
  | some .this_group_length => .ok (some param)
  | some .suppress_if_no_extension =>
    match dictGet result PNAME_FLAG_BYTE with
    | none => .error (.KeyError PNAME_FLAG_BYTE)
    | some (.int b) => if sfi_ext_flag b.toNat then .ok (some param) else .ok none
    | some _ => .error (.TypeError "FlagByte is not an int")
  | some .set_extension_length =>
    match dictGet result PNAME_FLAG_BYTE with
    | none => .error (.KeyError PNAME_FLAG_BYTE)
    | some (.int b) =>
      if sfi_ext_flag b.toNat then
        match dictGet result PNAME_EXT_LENGTH with
        | none => .error (.KeyError PNAME_EXT_LENGTH)
        | some (.int el) => .ok (some { param with length := el - 1 })
        | some _ => .error (.TypeError "ExtLength is not an int")
      else .ok none
    | some _ => .error (.TypeError "FlagByte is not an int")

/-- The `elif param.mandatory` branch of parse_syntax (lines 427-433):
report a missing mandatory parameter, fatally in strict mode, as an
accumulated exception otherwise. -/
def report_missing (param : ParameterType) (cfg : ParserConfig)
    (result : Rec) (cnt : Counters) : Except PError (Rec × Counters) :=
  if param.mandatory then
    let e := PError.RequiredParameterMissingError
      ("Required parameter missing: " ++ param.name)
    if cfg.strict then .error e else .ok (_add_exception e result, cnt)
  else .ok (result, cnt)

/-- Lines 419-433 of parse_syntax: store the decoded value under the
parameter's (uniqued) name if it is present and not an empty list,
otherwise report it missing. -/
def store_or_report (param : ParameterType) (value : Option PyVal)
    (cfg : ParserConfig) (result : Rec) (cnt : Counters) :
    Except PError (Rec × Counters) :=
  match value with
  | some v =>
    if pyIsList v = false ∨ pyListLength v ≠ 0 then
      let (_, r', c') := _add_param param.name v result cnt
      .ok (r', c')
    else report_missing param cfg result cnt
  | none => report_missing param cfg result cnt

/-- The outcome of decoding one parameter: a value (possibly absent)
together with the possibly truncated buffer and the possibly updated
`next_group_length`, or a raised exception, or fuel exhaustion. -/
inductive DecodeOut where
  | ok (value : Option PyVal) (data : List Nat) (ngl : Option Int)
  | err (e : PError)
  | spin
deriving Repr

/-- The outcome of one iteration of the syntax walk: continue with updated
state, exit the walk returning the result (the lenient end-of-stream
recovery), raise, or run out of fuel. -/
inductive StepOut where
  | cont (data : List Nat) (ngl : Option Int) (nfo : Int) (result : Rec) (cnt : Counters)
  | stop (result : Rec)
  | fail (e : PError)
  | spin
deriving Repr

/-! ### parser.py: the syntax interpreter, triplet driver and PTOCA driver -/

/-- The bundle of interpreter functions at one fuel level: `psyn`, `sloop`,
`sstep` and `dparam` are `parse_syntax`, its `for param in syntax` loop,
one loop iteration and the datatype dispatch; `gloop` is the
repeating-group loop; `ptrip`/`tloop` are `parse_triplets` and its loop;
`pptoca`/`ploop` are `parse_ptoca` and its loop.  (The source functions
are mutually recursive through nested syntaxes; indexing one structure of
closures by the fuel keeps the recursion structural, so that the model
computes by `rfl`.) -/
structure Interp where
  psyn : List Nat → List SynElem → ParserConfig → Rec → Counters →
    Res (Rec × Nat × Counters)
  sloop : List Nat → List SynElem → ParserConfig → Option Int → Int → Rec →
    Counters → Res (Rec × Nat × Counters)
  sstep : List Nat → SynElem → ParserConfig → Option Int → Int → Rec →
    Counters → StepOut
  dparam : List Nat → ParameterType → ParserConfig → Option Int → DecodeOut
  gloop : List Nat → List ParameterType → ParserConfig → Option Int → Int →
    List Rec → Res (List Rec × Int)
  ptrip : List Nat → ParserConfig → Nat → Res (List Rec)
  tloop : List Nat → ParserConfig → Nat → Nat → Res (List Rec)
  pptoca : List Nat → ParserConfig → Nat → Res (List Rec)
  ploop : List Nat → ParserConfig → Nat → Bool → Nat → Res (List Rec)

/-- Body of `parse_syntax(data, syntax, parser_config, result,
param_appearance_counters)` from parser.py, one fuel level above `I`:
start the walk with `next_group_length = 0` and `next_field_offset = 0`.
The callers that pass `None` for `data` pass `[]` here, as the source
replaces `None` by `[]` on entry. -/
def parse_syntax_body (I : Interp) (data : List Nat) (stx : List SynElem)
    (cfg : ParserConfig) (result : Rec) (cnt : Counters) :
    Res (Rec × Nat × Counters) :=
  I.sloop data stx cfg (some 0) 0 result cnt

/-- Body of the `for param in syntax` loop of `parse_syntax`, carrying
`next_group_length` (`ngl`; `none` models Python `None`) and
`next_field_offset` (`nfo`).  Returns the result record, `len(data)` and
the counters dict (shared with the caller and mutated in place in the
source).  A `stop` from the body is the lenient end-of-stream recovery:
the walk exits and the result so far is returned. -/
def syntax_loop_body (I : Interp) (data : List Nat) (elems : List SynElem)
    (cfg : ParserConfig) (ngl : Option Int) (nfo : Int) (result : Rec)
    (cnt : Counters) : Res (Rec × Nat × Counters) :=
  match elems with
  | [] => .ok (result, data.length, cnt)
  | el :: rest =>
    match I.sstep data el cfg ngl nfo result cnt with
    | .cont data' ngl' nfo' result' cnt' =>
      I.sloop data' rest cfg ngl' nfo' result' cnt'
    | .stop result' => .ok (result', data.length, cnt)
    | .fail e => .err e
    | .spin => .spin

/-- Body of one iteration of the `for param in syntax` loop of
`parse_syntax`: either a repeating group (a nested list in the source) or
a regular parameter.  An `EOSWhileReadingError` raised while decoding a
parameter is converted as in the `except` clause of parse_syntax: to
`required-parameter-missing` for a mandatory parameter and to
`incomplete-parameter` for an optional one; in strict mode it is raised,
otherwise it is appended to `_exceptions` and the walk stops. -/
def syntax_step_body (I : Interp) (data : List Nat) (el : SynElem)
    (cfg : ParserConfig) (ngl : Option Int) (nfo : Int) (result : Rec)
    (cnt : Counters) : StepOut :=
  match el with
  | .G g =>
    -- if no length was given by an earlier parameter, sum the group's own
    let ngl1 := if ngl = some 0 then some (syntax_length g) else ngl
    match I.gloop data g cfg ngl1 nfo [] with
    | .spin => .spin
    | .err e => .fail e
    | .ok (value, rgo) =>
      if value.length > 0 then
        let (_, r', c') := _add_param PNAME_REPEATING_GROUP (.recs value) result cnt
        .cont data (some 0) rgo r' c'
      else .cont data (some 0) rgo result cnt
  | .P param0 =>
    match apply_preproc param0 result with
    | .error e => .fail e
    | .ok none => .cont data ngl nfo result cnt
    | .ok (some param) =>
      match I.dparam data param cfg ngl with
      | .spin => .spin
      | .err (.EOSWhileReadingError _) =>
        let e := if param.mandatory then
            PError.RequiredParameterMissingError
              ("Required parameter missing: " ++ param.name)
          else
            PError.IncompleteParameterError
              ("Not enough data to parse parameter " ++ param.name)
        if cfg.strict then .fail e else .stop (_add_exception e result)
      | .err e => .fail e
      | .ok value data' ngl' =>
        match store_or_report param value cfg result cnt with
        | .error e => .fail e
        | .ok (result', cnt') =>
          .cont data' ngl' (param.offset + param.length) result' cnt'

/-- Body of the `if param.datatype == ...` dispatch of parse_syntax (lines
389-418), including the `next_group_length` / `this_group_length` handling
attached to `ubin` parameters. -/
def decode_param_body (I : Interp) (data : List Nat) (param : ParameterType)
    (cfg : ParserConfig) (ngl : Option Int) : DecodeOut :=
  if param.datatype = PTYPE_CODE then
    match parse_code data param.length param.offset with
    | .error e => .err e
    | .ok v => .ok (v.map (fun u => .int u)) data ngl
  else if param.datatype = PTYPE_BYTE then
    match parse_bytes data param.length param.offset with
    | .error e => .err e
    | .ok none => .ok none data ngl
    | .ok (some bs) =>
      .ok (some (if param.length = 1 then .int (bs.getD 0 0) else .bytes bs)) data ngl
  else if param.datatype = PTYPE_UBIN then
    match parse_ubin data param.length param.offset with
    | .error e => .err e
    | .ok v =>
      if param.preproc = some .next_group_length then
        match v with
        | some u =>
          if u = 0 then .err (.RepeatingGroupError "Repeating group length cannot be zero")
          else .ok (some (.int u)) data (some (u : Int))
        | none => .ok none data none
      else if param.preproc = some .this_group_length then
        match v with
        | some u =>
          if u = 0 then .err (.RepeatingGroupError "Repeating group length cannot be zero")
          else if (u : Int) > data.length then
            .err (.RepeatingGroupError "Repeating group length longer than available data")
          else .ok (some (.int u)) (data.take u) ngl
        | none => .err (.TypeError "comparison of None and int")
      else .ok (v.map (fun u => .int u)) data ngl
  else if param.datatype = PTYPE_SBIN then
    match parse_sbin data param.length param.offset with
    | .error e => .err e
    | .ok v => .ok (v.map .int) data ngl
  else if param.datatype = PTYPE_CHAR then
    match parse_chars data param.length param.offset with
    | .error e => .err e
    | .ok v => .ok (v.map .str) data ngl
  else if param.datatype = PTYPE_TRIPLET then
    match I.ptrip data cfg param.offset with
    | .spin => .spin
    | .err e => .err e
    | .ok ts => .ok (some (.recs ts)) data ngl
  else if param.datatype = PTYPE_PTOCA then
    match I.pptoca data cfg param.offset with
    | .spin => .spin
    | .err e => .err e
    | .ok cs => .ok (some (.recs cs)) data ngl
  else .ok none data ngl

/-- Body of the repeating-group `while` loop of parse_syntax (lines
360-373): carve slices of the chosen length (or the remainder when the
length is zero) and recursively interpret each against the nested syntax.
`rgo` is `repeating_group_offset`.  A `none` group length models Python
`None` (from a `next_group_length` parameter that decoded to `None`), on
which the `offset + length` comparison would raise `TypeError`. -/
def group_loop_body (I : Interp) (data : List Nat) (g : List ParameterType)
    (cfg : ParserConfig) (ngl : Option Int) (rgo : Int) (value : List Rec) :
    Res (List Rec × Int) :=
  if rgo < (data.length : Int) then
    let rgdata : Except PError (List Nat) :=
      match ngl with
      | none => .error (.TypeError "comparison of None and int")
      | some l =>
        if l ≠ 0 then
          if rgo + l > (data.length : Int) then
            .error (.RepeatingGroupError "Repeating group length longer than available data")
          else .ok ((data.drop rgo.toNat).take l.toNat)
        else .ok (data.drop rgo.toNat)
    match rgdata with
    | .error e => .err e
    | .ok slice =>
      match I.psyn slice (g.map .P) cfg [] [] with
      | .spin => .spin
      | .err e => .err e
      | .ok (r, bytes_processed, _) =>
        I.gloop data g cfg ngl (rgo + bytes_processed) (value ++ [r])
  else .ok (value, rgo)

/-- Body of `parse_triplets(data, parser_config, offset)` from parser.py. -/
def parse_triplets_body (I : Interp) (data : List Nat) (cfg : ParserConfig)
    (offset : Nat) : Res (List Rec) :=
  I.tloop data cfg offset 0

/-- Body of the `while p < len(data)` loop of parse_triplets.  Each
iteration reads the one-byte `Tlength` and `Tid`, checks the triplet
table, carves `Tlength - 2` content bytes, interprets them, attaches
`Tlength`/`Tid` and advances by `Tlength` bytes. -/
def triplets_loop_body (I : Interp) (data : List Nat) (cfg : ParserConfig)
    (p : Nat) (i : Nat) : Res (List Rec) :=
  if p < data.length then
    match parse_ubin data 1 p with
    | .error e => .err e
    | .ok none => .err (.TypeError "unreachable: p < len(data)")
    | .ok (some t_length) =>
      match parse_code data 1 (p+1) with
      | .error e => .err e
      | .ok none =>
        .err (.InvalidTripletError
          ("Not enough data to parse triplet " ++ decRepr (i+1) ++ " Id"))
      | .ok (some t_id) =>
        if (List.lookup t_id TRIPLET_TYPES).isNone ∧ cfg.allow_unknown_triplets = false then
          .err (.UnrecognizedTripletError ("Unrecognized triplet 0x" ++ hexReprPad 2 t_id))
        else
          match parse_bytes data ((t_length : Int) - 2) (p+2) with
          | .error (.EOSWhileReadingError _) =>
            .err (.InvalidTripletError
              ("Not enough data to parse triplet " ++ decRepr (i+1) ++ " contents"))
          | .error e => .err e
          | .ok none =>
            .err (.InvalidTripletError
              ("Not enough data to parse triplet " ++ decRepr (i+1) ++ " contents"))
          | .ok (some contents) =>
            let stx := match List.lookup t_id TRIPLET_TYPES with
              | some tt => match tt.syn with
                | some s => s
                | none => SYNTAX_TRIPLET_RAW
              | none => SYNTAX_TRIPLET_RAW
            match I.psyn contents stx cfg [] [] with
            | .spin => .spin
            | .err e => .err e
            | .ok (triplet, _, _) =>
              let triplet :=
                dictSet (dictSet triplet PNAME_T_LENGTH (.int t_length)) PNAME_T_ID (.int t_id)
              match I.tloop data cfg (p + t_length) (i+1) with
              | .spin => .spin
              | .err e => .err e
              | .ok rest => .ok (triplet :: rest)
  else .ok []

/-- Body of `parse_ptoca(data, parser_config, offset)` from parser.py. -/
def parse_ptoca_body (I : Interp) (data : List Nat) (cfg : ParserConfig)
    (offset : Nat) : Res (List Rec) :=
  I.ploop data cfg offset false 0

/-- Body of the `while p < len(data)` loop of parse_ptoca.  Before an
unchained control sequence the two-byte escape `0x2BD3` is consumed; then
the one-byte `LENGTH` and `TYPE` are read, the function table is checked,
`LENGTH - 2` content bytes are carved and interpreted, `LENGTH`/`TYPE`
are attached, and the loop continues with `chained = TYPE & 1`.  On exit
with `chained` still true the final function illegally chained. -/
def ptoca_loop_body (I : Interp) (data : List Nat) (cfg : ParserConfig)
    (p : Nat) (chained : Bool) (i : Nat) : Res (List Rec) :=
  if p < data.length then
    let escaped : Except PError Nat :=
      if ¬chained then
        match parse_ubin data 2 p with
        | .error (.EOSWhileReadingError _) =>
          .error (.InvalidControlSequenceError
            ("Not enough data to parse control sequence " ++ decRepr (i+1)
              ++ " escape sequence"))
        | .error e => .error e
        | .ok esc =>
          if esc ≠ some PTX_ESCAPE_SEQUENCE then
            .error (.InvalidControlSequenceError
              ("Missing 0x" ++ hexRepr PTX_ESCAPE_SEQUENCE
                ++ " escape sequence before control sequence " ++ decRepr (i+1)))
          else .ok (p + 2)
      else .ok p
    match escaped with
    | .error e => .err e
    | .ok p1 =>
      match parse_ubin data 1 p1 with
      | .error e => .err e
      | .ok none =>
        .err (.InvalidControlSequenceError
          ("Not enough data to parse control sequence " ++ decRepr (i+1) ++ " length"))
      | .ok (some length) =>
        match parse_ubin data 1 (p1 + 1) with
        | .error e => .err e
        | .ok none =>
          .err (.InvalidControlSequenceError
            ("Not enough data to parse control sequence " ++ decRepr (i+1) ++ " function"))
        | .ok (some function) =>
          let p3 := p1 + 2
          if (List.lookup function FUNCTIONS).isNone ∧ cfg.allow_unknown_functions = false then
            .err (.UnknownFunctionError ("Unknown function 0x" ++ hexRepr function))
          else
            match parse_bytes data ((length : Int) - 2) p3 with
            | .error (.EOSWhileReadingError _) =>
              .err (.InvalidControlSequenceError
                ("Not enough data to parse control sequence " ++ decRepr (i+1)
                  ++ " function data"))
            | .error e => .err e
            | .ok function_data =>
              -- p += length - 2; here p3 ≥ 2, so Nat subtraction is exact
              let p4 := p3 + length - 2
              if function_data.isNone ∧ (length : Int) - 2 > 0 then
                .err (.InvalidControlSequenceError
                  ("Not enough data to parse control sequence " ++ decRepr (i+1)
                    ++ " function data"))
              else
                let stx := match List.lookup function FUNCTIONS with
                  | some fi => match fi.syn with
                    | some s => s
                    | none => SYNTAX_FUNCTION_RAW
                  | none => SYNTAX_FUNCTION_RAW
                -- parse_syntax turns a None data argument into []
                match I.psyn (function_data.getD []) stx cfg [] [] with
                | .spin => .spin
                | .err e => .err e
                | .ok (cs, _, _) =>
                  let cs :=
                    dictSet (dictSet cs PNAME_CS_LENGTH (.int length)) PNAME_CS_TYPE (.int function)
                  match I.ploop data cfg p4 (chained_function function) (i+1) with
                  | .spin => .spin
                  | .err e => .err e
                  | .ok rest => .ok (cs :: rest)
  else
    if chained then .err (.InvalidControlSequenceError "Final function is chained")
    else .ok []

/-- The interpreter at fuel 0: every loop entry is out of fuel (`spin`);
only an empty syntax walk still returns, since the `for` loop of
`parse_syntax` runs no iteration on an empty syntax. -/
def interpZero : Interp where
  psyn := fun _ _ _ _ _ => .spin
  sloop := fun data elems _ _ _ result cnt =>
    match elems with
    | [] => .ok (result, data.length, cnt)
    | _ :: _ => .spin
  sstep := fun _ _ _ _ _ _ _ => .spin
  dparam := fun _ _ _ _ => .spin
  gloop := fun _ _ _ _ _ _ => .spin
  ptrip := fun _ _ _ => .spin
  tloop := fun _ _ _ _ => .spin
  pptoca := fun _ _ _ => .spin
  ploop := fun _ _ _ _ _ => .spin

/-- The interpreter at each fuel level: each loop iteration and each
nested call steps down one level. -/
def interp : Nat → Interp
  | 0 => interpZero
  | fuel+1 =>
    let I := interp fuel
    { psyn := parse_syntax_body I
      sloop := syntax_loop_body I
      sstep := syntax_step_body I
      dparam := decode_param_body I
      gloop := group_loop_body I
      ptrip := parse_triplets_body I
      tloop := triplets_loop_body I
      pptoca := parse_ptoca_body I
      ploop := ptoca_loop_body I }

/-- `parse_syntax(data, syntax, parser_config, result, param_appearance_counters)`
from parser.py, at the given fuel. -/
def parse_syntax (fuel : Nat) (data : List Nat) (stx : List SynElem)
    (cfg : ParserConfig) (result : Rec) (cnt : Counters) :
    Res (Rec × Nat × Counters) :=
  (interp fuel).psyn data stx cfg result cnt

/-- The `for param in syntax` loop of `parse_syntax`, at the given fuel. -/
def syntax_loop (fuel : Nat) (data : List Nat) (elems : List SynElem)
    (cfg : ParserConfig) (ngl : Option Int) (nfo : Int) (result : Rec)
    (cnt : Counters) : Res (Rec × Nat × Counters) :=
  (interp fuel).sloop data elems cfg ngl nfo result cnt

/-- One iteration of the `for param in syntax` loop, at the given fuel. -/
def syntax_step (fuel : Nat) (data : List Nat) (el : SynElem)
    (cfg : ParserConfig) (ngl : Option Int) (nfo : Int) (result : Rec)
    (cnt : Counters) : StepOut :=
  (interp fuel).sstep data el cfg ngl nfo result cnt

/-- The datatype dispatch of `parse_syntax`, at the given fuel. -/
def decode_param (fuel : Nat) (data : List Nat) (param : ParameterType)
    (cfg : ParserConfig) (ngl : Option Int) : DecodeOut :=
  (interp fuel).dparam data param cfg ngl

/-- The repeating-group loop of `parse_syntax`, at the given fuel. -/
def group_loop (fuel : Nat) (data : List Nat) (g : List ParameterType)
    (cfg : ParserConfig) (ngl : Option Int) (rgo : Int) (value : List Rec) :
    Res (List Rec × Int) :=
  (interp fuel).gloop data g cfg ngl rgo value

/-- `parse_triplets(data, parser_config, offset)` from parser.py, at the
given fuel. -/
def parse_triplets (fuel : Nat) (data : List Nat) (cfg : ParserConfig)
    (offset : Nat) : Res (List Rec) :=
  (interp fuel).ptrip data cfg offset

/-- The `while p < len(data)` loop of `parse_triplets`, at the given
fuel. -/
def triplets_loop (fuel : Nat) (data : List Nat) (cfg : ParserConfig)
    (p : Nat) (i : Nat) : Res (List Rec) :=
  (interp fuel).tloop data cfg p i

/-- `parse_ptoca(data, parser_config, offset)` from parser.py, at the
given fuel. -/
def parse_ptoca (fuel : Nat) (data : List Nat) (cfg : ParserConfig)
    (offset : Nat) : Res (List Rec) :=
  (interp fuel).pptoca data cfg offset

/-- The `while p < len(data)` loop of `parse_ptoca`, at the given fuel. -/
def ptoca_loop (fuel : Nat) (data : List Nat) (cfg : ParserConfig)
    (p : Nat) (chained : Bool) (i : Nat) : Res (List Rec) :=
  (interp fuel).ploop data cfg p chained i

/-! ### parser.py: the structured-field reader and the stream API -/

/-- `read_structured_field(f, parser_config)` from parser.py.  Returns
`none` at a clean end of input.  Note that the `logger.debug` call guarded
by the extension flag evaluates `sf[ExtLength]` and `sf[ExtData]` eagerly,
so those lookups (and their possible `KeyError`) are part of the
behaviour. -/
def read_structured_field (fuel : Nat) (f : PFile) (cfg : ParserConfig) :
    Res (Option Rec × PFile) :=
  match read_byte f with
  | .error e => .err e
  | .ok (none, f1) => .ok (none, f1)
  | .ok (some b, f1) =>
    if b ≠ CARRIAGE_CONTROL_CHAR then
      .err (.InvalidStructuredFieldError
        ("Missing 0x" ++ hexReprPad 2 CARRIAGE_CONTROL_CHAR ++ " carriage control character"))
    else
      match read_ubin f1 2 with
      | .error (.EOFWhileReadingError _) =>
        .err (.InvalidStructuredFieldError "Not enough data to read structured field length")
      | .error e => .err e
      | .ok (none, _) => .err (.InvalidStructuredFieldError "Missing structured field length")
      | .ok (some sf_length, f2) =>
        match read_bytes f2 ((sf_length : Int) - 2) with
        | .error (.EOFWhileReadingError _) =>
          .err (.InvalidStructuredFieldError "Not enough data to read structured field")
        | .error e => .err e
        | .ok (none, _) => .err (.InvalidStructuredFieldError "Structured field incorrect length")
        | .ok (some data, f3) =>
          match parse_syntax fuel data SYNTAX_SFI cfg [] [] with
          | .spin => .spin
          | .err e => .err e
          | .ok (sf0, _, cnt) =>
            let sf := dictSet sf0 PNAME_SF_LENGTH (.int sf_length)
            match dictGet sf PNAME_SF_TYPE_ID with
            | none => .err (.KeyError PNAME_SF_TYPE_ID)
            | some (.int sftid) =>
              if (sftid.toNat &&& 0xFF0000) >>> 16 ≠ MODCA_CLASS_CODE then
                .err (.UnrecognizedIdentifierCodeError
                  ("Unrecognized class code 0x" ++ hexReprPad 6 sftid.toNat
                    ++ " - MO:DCA uses class code 0x" ++ hexReprPad 2 MODCA_CLASS_CODE))
              else
                match dictGet sf PNAME_FLAG_BYTE with
                | none => .err (.KeyError PNAME_FLAG_BYTE)
                | some (.int flag_byte) =>
                  if sfi_pad_flag flag_byte.toNat then
                    .err (.PaddingNotImplementedError "Structured Field padding is not supported")
                  else
                    let sf_type := List.lookup sftid.toNat SF_TYPES
                    if sf_type.isNone ∧ cfg.allow_unknown_fields = false then
                      .err (.UnrecognizedStructuredFieldError
                        ("Unrecognized structured field 0x" ++ hexReprPad 6 sftid.toNat))
                    else
                      let extLookups : Except PError (Option Nat) :=
                        if sfi_ext_flag flag_byte.toNat then
                          match dictGet sf PNAME_EXT_LENGTH with
                          | none => .error (.KeyError PNAME_EXT_LENGTH)
                          | some (.int el) =>
                            match dictGet sf PNAME_EXT_DATA with
                            | none => .error (.KeyError PNAME_EXT_DATA)
                            | some _ => .ok (some el.toNat)
                          | some _ => .error (.TypeError "ExtLength is not an int")
                        else .ok none
                      match extLookups with
                      | .error e => .err e
                      | .ok extLen =>
                        let field_data_start := 6 + extLen.getD 0
                        let field_data := data.drop field_data_start
                        let stx := match sf_type with
                          | some st => match st.syn with
                            | some s => s
                            | none => SYNTAX_FIELD_RAW
                          | none => SYNTAX_FIELD_RAW
                        match parse_syntax fuel field_data stx cfg sf cnt with
                        | .spin => .spin
                        | .err e => .err e
                        | .ok (sf', _, _) => .ok (some sf', f3)
                | some _ => .err (.TypeError "FlagByte is not an int")
            | some _ => .err (.TypeError "SFTypeID is not an int")

/-- The result of `load`: the collected structured fields, or the raised
fatal error annotated with `field_no` and `field_start_offset` as done by
`stream`, or fuel exhaustion. -/
inductive LoadRes where
  | ok (sfs : List Rec)
  | err (e : PError) (field_no : Nat) (field_start_offset : Nat)
  | spin
deriving Repr

/-- The loop of `stream(f, ...)` from parser.py, collecting the yielded
structured fields as `load(f, ...)` does.  `field_start_offset` is taken
from the file position before each read, as `stream` does with
`f.tell()`. -/
def load_loop (fuel : Nat) (f : PFile) (cfg : ParserConfig) (field_no : Nat)
    (acc : List Rec) : LoadRes :=
  match fuel with
  | 0 => .spin
  | fu+1 =>
    let field_start_offset := f.pos
    match read_structured_field fu f cfg with
    | .spin => .spin
    | .err e => .err e field_no field_start_offset
    | .ok (none, _) => .ok acc
    | .ok (some sf, f') => load_loop fu f' cfg (field_no + 1) (acc ++ [sf])

/-- `load(f, ...)` from parser.py: drive the stream to exhaustion and
collect the structured fields in file order. -/
def load (fuel : Nat) (f : PFile) (cfg : ParserConfig) : LoadRes :=
  load_loop fuel f cfg 1 []

/-! ### Iterated parameter insertion (for the name-uniquing analysis) -/

/-- One `_add_param` call per value of a list: the iterated insertion of
the same parameter name into one record, as parse_syntax performs across
repeated appearances of a parameter. -/
def add_params (name : String) (vs : List PyVal) (r : Rec) (c : Counters) :
    Rec × Counters :=
  match vs with
  | [] => (r, c)
  | v :: rest =>
    let t := _add_param name v r c
    add_params name rest t.2.1 t.2.2

/-- The name the specification prescribes for the k-th occurrence
(1-based) of a parameter within one record: the bare name for the first,
`name-k` for the k-th. -/
def nth_param_name (name : String) (k : Nat) : String :=
  if k = 1 then name else name ++ "-" ++ decRepr k

/-- The record the specification prescribes for the values of one
repeatedly occurring parameter: the k-th value under `nth_param_name k`,
in insertion order. -/
def spec_params (name : String) (k : Nat) : List PyVal → Rec
  | [] => []
  | v :: rest => (nth_param_name name k, v) :: spec_params name (k+1) rest

/-! ### Concrete inputs and intermediate states used in the claim analyses -/

/-- A Begin Document (BDT) structured field, correctly framed
(`SFLength = 0x15` = 21 = the 21 bytes after the `0x5A`), whose triplet
region is the three bytes `00 01 00`: a triplet header with `Tlength = 0`
followed by the known triplet id `0x01` and one further byte. -/
def wireC3 : List Nat := [0x5A, 0x00, 0x15, 0xD3, 0xA8, 0xA8, 0x00, 0x00, 0x00,
  0xC4, 0xD6, 0xC3, 0xE4, 0xD4, 0xC5, 0xD5, 0xE3, 0x00, 0x00, 0x00, 0x01, 0x00]

/-- The field data of `wireC3` after the 6-byte introducer: the EBCDIC
name `DOCUMENT`, the two reserved bytes, and the triplet region
`00 01 00`. -/
def bodyC3 : List Nat := [0xC4, 0xD6, 0xC3, 0xE4, 0xD4, 0xC5, 0xD5, 0xE3,
  0x00, 0x00, 0x00, 0x01, 0x00]

/-- The record state of the `wireC3` parse when the BDT syntax walk
starts: the decoded introducer plus `SFLength`. -/
def R0C3 : Rec := [(PNAME_SF_TYPE_ID, .int 13871272), (PNAME_FLAG_BYTE, .int 0),
  ("Reserved", .bytes [0, 0]), (PNAME_SF_LENGTH, .int 21)]

/-- The appearance counters of the `wireC3` parse when the BDT syntax
walk starts. -/
def C0C3 : Counters := [(PNAME_SF_TYPE_ID, 1), (PNAME_FLAG_BYTE, 1), ("Reserved", 1)]

/-- The record state of the `wireC3` parse after the `DocName`
parameter. -/
def R1C3 : Rec := R0C3 ++ [("DocName", .str "DOCUMENT")]

/-- The appearance counters of the `wireC3` parse after the `DocName`
parameter. -/
def C1C3 : Counters := C0C3 ++ [("DocName", 1)]

/-- The record state of the `wireC3` parse after the (uniqued) second
`Reserved` parameter. -/
def R2C3 : Rec := R1C3 ++ [("Reserved-2", .bytes [0, 0])]

/-- The appearance counters of the `wireC3` parse after the second
`Reserved` parameter. -/
def C2C3 : Counters := [(PNAME_SF_TYPE_ID, 1), (PNAME_FLAG_BYTE, 1), ("Reserved", 2),
  ("DocName", 1)]

/-- The `Triplets` parameter of `SYNTAX_FIELD_BDT`. -/
def TP_BDT : ParameterType := ⟨10, 0, PTYPE_TRIPLET, PNAME_TRIPLETS, true, none⟩

/-- The record the lenient walk produces for the empty contents of a
`Tlength = 0` triplet with id `0x01`. -/
def RT01 : Rec := [(PNAME_EXCEPTIONS, .excs [(4, "0x04 Required parameter missing: GCSGID"),
  (4, "0x04 Required parameter missing: ID")])]

/-! ### Lemmas about the ordered-dict operations -/

theorem find?_key_cons_pos {α : Type} {k : String} {a : String × α}
    (t : List (String × α)) (h : a.1 = k) :
    List.find? (fun kv => kv.1 == k) (a :: t) = some a := by
  simp [List.find?_cons, h]

theorem find?_key_cons_neg {α : Type} {k : String} {a : String × α}
    (t : List (String × α)) (h : ¬a.1 = k) :
    List.find? (fun kv => kv.1 == k) (a :: t)
      = List.find? (fun kv => kv.1 == k) t := by
  simp [List.find?_cons, h]

theorem find?_key_map_set_ne {α : Type} {k' k : String} (h : k' ≠ k) (v : α)
    (t : List (String × α)) :
    List.find? (fun kv => kv.1 == k)
        (t.map (fun kv => if kv.1 == k' then (k', v) else kv))
      = List.find? (fun kv => kv.1 == k) t := by
  induction t with
  | nil => rfl
  | cons a t ih =>
    rw [List.map_cons]
    by_cases ha : a.1 = k'
    · have hmap : (if a.1 == k' then (k', v) else a) = (k', v) := by simp [ha]
      rw [hmap, find?_key_cons_neg _ (show ¬((k', v) : String × α).1 = k from h),
          find?_key_cons_neg _ (show ¬a.1 = k by rw [ha]; exact h)]
      exact ih
    · have hmap : (if a.1 == k' then (k', v) else a) = a := by simp [ha]
      rw [hmap]
      by_cases hak : a.1 = k
      · rw [find?_key_cons_pos _ hak, find?_key_cons_pos _ hak]
      · rw [find?_key_cons_neg _ hak, find?_key_cons_neg _ hak]
        exact ih

theorem find?_key_append_ne {α : Type} {k' k : String} (h : k' ≠ k) (v : α)
    (t : List (String × α)) :
    List.find? (fun kv => kv.1 == k) (t ++ [(k', v)])
      = List.find? (fun kv => kv.1 == k) t := by
  induction t with
  | nil =>
    rw [List.nil_append, find?_key_cons_neg _ (show ¬((k', v) : String × α).1 = k from h)]
  | cons a t ih =>
    rw [List.cons_append]
    by_cases hak : a.1 = k
    · rw [find?_key_cons_pos _ hak, find?_key_cons_pos _ hak]
    · rw [find?_key_cons_neg _ hak, find?_key_cons_neg _ hak]
      exact ih

theorem find?_key_map_set_self {α : Type} {k : String} (v : α)
    (t : List (String × α)) (hc : dictContains t k = true) :
    List.find? (fun kv => kv.1 == k)
        (t.map (fun kv => if kv.1 == k then (k, v) else kv))
      = some (k, v) := by
  induction t with
  | nil => simp [dictContains] at hc
  | cons a t ih =>
    rw [List.map_cons]
    by_cases ha : a.1 = k
    · have hmap : (if a.1 == k then (k, v) else a) = (k, v) := by simp [ha]
      rw [hmap, find?_key_cons_pos _ (show ((k, v) : String × α).1 = k from rfl)]
    · have hmap : (if a.1 == k then (k, v) else a) = a := by simp [ha]
      have hc' : dictContains t k = true := by
        simpa [dictContains, ha] using hc
      rw [hmap, find?_key_cons_neg _ ha]
      exact ih hc'

theorem find?_key_append_self {α : Type} {k : String} (v : α)
    (t : List (String × α)) (hc : dictContains t k = false) :
    List.find? (fun kv => kv.1 == k) (t ++ [(k, v)]) = some (k, v) := by
  induction t with
  | nil =>
    rw [List.nil_append, find?_key_cons_pos _ (show ((k, v) : String × α).1 = k from rfl)]
  | cons a t ih =>
    have ha : ¬a.1 = k := by
      intro hak
      simp [dictContains, hak] at hc
    have hc' : dictContains t k = false := by
      simpa [dictContains, ha] using hc
    rw [List.cons_append, find?_key_cons_neg _ ha]
    exact ih hc'

theorem dictGet_dictSet_self {α : Type} (r : List (String × α)) (k : String) (v : α) :
    dictGet (dictSet r k v) k = some v := by
  unfold dictSet
  split
  · rename_i hc
    simp only [dictGet]
    rw [find?_key_map_set_self v r hc]
    rfl
  · rename_i hc
    simp only [dictGet]
    rw [find?_key_append_self v r (by simpa using hc)]
    rfl

theorem dictGet_dictSet_ne {α : Type} (r : List (String × α)) {k' k : String} (v : α)
    (h : k' ≠ k) : dictGet (dictSet r k' v) k = dictGet r k := by
  unfold dictSet
  split
  · simp only [dictGet]
    rw [find?_key_map_set_ne h v r]
  · simp only [dictGet]
    rw [find?_key_append_ne h v r]

/-! ### Injectivity of the decimal rendering -/

/-- Value of a little-endian decimal digit list. -/
def ofDigitsRev : List Nat → Nat
  | [] => 0
  | d :: ds => d + 10 * ofDigitsRev ds

theorem ofDigitsRev_toDigitsRevAux :
    ∀ (fuel n : Nat), n < fuel → ofDigitsRev (toDigitsRevAux fuel n) = n := by
  intro fuel
  induction fuel with
  | zero => intro n h; omega
  | succ f ih =>
    intro n h
    simp only [toDigitsRevAux]
    split
    · simp [ofDigitsRev]
    · rename_i h10
      simp only [ofDigitsRev]
      rw [ih (n / 10) (by omega)]
      omega

theorem ofDigitsRev_toDigitsRev (n : Nat) : ofDigitsRev (toDigitsRev n) = n :=
  ofDigitsRev_toDigitsRevAux (n + 1) n (by omega)

theorem toDigitsRevAux_lt_ten :
    ∀ (fuel n : Nat), ∀ d ∈ toDigitsRevAux fuel n, d < 10 := by
  intro fuel
  induction fuel with
  | zero => intro n d hd; simp [toDigitsRevAux] at hd
  | succ f ih =>
    intro n d hd
    simp only [toDigitsRevAux] at hd
    split at hd
    · rename_i h
      simp only [List.mem_singleton] at hd
      omega
    · simp only [List.mem_cons] at hd
      rcases hd with rfl | hd
      · omega
      · exact ih (n / 10) d hd

theorem toDigitsRev_lt_ten (n : Nat) : ∀ d ∈ toDigitsRev n, d < 10 :=
  toDigitsRevAux_lt_ten (n + 1) n

theorem digitChar_inj {a b : Nat} (ha : a < 10) (hb : b < 10)
    (h : digitChar a = digitChar b) : a = b := by
  interval_cases a <;> interval_cases b <;> revert h <;> decide

theorem map_digitChar_inj (l1 : List Nat) : ∀ (l2 : List Nat),
    (∀ x ∈ l1, x < 10) → (∀ x ∈ l2, x < 10) →
    l1.map digitChar = l2.map digitChar → l1 = l2 := by
  induction l1 with
  | nil =>
    intro l2 _ _ h
    cases l2 <;> simp_all
  | cons a t ih =>
    intro l2 h1 h2 h
    cases l2 with
    | nil => simp_all
    | cons b t2 =>
      simp only [List.map_cons, List.cons.injEq] at h
      have hab := digitChar_inj (h1 a (by simp)) (h2 b (by simp)) h.1
      subst hab
      have ht := ih t2 (fun x hx => h1 x (by simp [hx]))
        (fun x hx => h2 x (by simp [hx])) h.2
      simp [ht]

theorem decRepr_injective : Function.Injective decRepr := by
  intro a b h
  unfold decRepr at h
  have hdata : ((toDigitsRev a).reverse).map digitChar
      = ((toDigitsRev b).reverse).map digitChar := by
    injection h
  have hrev := map_digitChar_inj _ _
    (fun x hx => toDigitsRev_lt_ten a x (List.mem_reverse.mp hx))
    (fun x hx => toDigitsRev_lt_ten b x (List.mem_reverse.mp hx)) hdata
  have hdig : toDigitsRev a = toDigitsRev b := List.reverse_injective hrev
  calc a = ofDigitsRev (toDigitsRev a) := (ofDigitsRev_toDigitsRev a).symm
    _ = ofDigitsRev (toDigitsRev b) := by rw [hdig]
    _ = b := ofDigitsRev_toDigitsRev b

/-! ### Lemmas about the uniqued parameter names -/

theorem dash_mem_unique_name (n s : String) : '-' ∈ (n ++ "-" ++ s).data := by
  rw [String.data_append, String.data_append]
  simp [show ("-" : String).data = ['-'] from rfl]

theorem self_ne_unique_name (n s : String) : n ≠ n ++ "-" ++ s := by
  intro h
  have h' := congrArg (fun x : String => x.data.length) h
  simp only [String.data_append, List.length_append,
    show ("-" : String).data = ['-'] from rfl] at h'
  simp only [List.length_singleton] at h'
  omega

theorem unique_name_inj {n : String} {s1 s2 : String}
    (h : n ++ "-" ++ s1 = n ++ "-" ++ s2) : s1 = s2 := by
  have h' := congrArg String.data h
  simp only [String.data_append] at h'
  exact String.ext (List.append_cancel_left h')

theorem dashfree_ne_unique_name {k : String} (hk : '-' ∉ k.data) (n s : String) :
    k ≠ n ++ "-" ++ s := by
  intro h
  exact hk (h ▸ dash_mem_unique_name n s)

/-! ### Preservation of existing record bindings by the syntax walk -/

theorem dictContains_of_dictGet {α : Type} : ∀ {r : List (String × α)} {k : String} {v : α},
    dictGet r k = some v → dictContains r k = true := by
  intro r k v h
  induction r with
  | nil => simp [dictGet] at h
  | cons a t ih =>
    by_cases hak : a.1 = k
    · simp [dictContains, hak]
    · rw [show dictGet (a :: t) k = dictGet t k from by
        simp only [dictGet]; rw [find?_key_cons_neg _ hak]] at h
      have ht := ih h
      simp [dictContains] at ht ⊢
      exact Or.inr ht

/-- `r'` preserves every binding of `r` whose key contains no dash and is
not `_exceptions`: the syntax walk only adds fresh keys, rebinds dashed
uniqued names, or appends to `_exceptions`. -/
def Preserves (r r' : Rec) : Prop :=
  ∀ k v, '-' ∉ k.data → k ≠ PNAME_EXCEPTIONS → dictGet r k = some v → dictGet r' k = some v

theorem Preserves.rfl (r : Rec) : Preserves r r := fun _ _ _ _ h => h

theorem Preserves.trans {r1 r2 r3 : Rec} (h12 : Preserves r1 r2)
    (h23 : Preserves r2 r3) : Preserves r1 r3 :=
  fun k v hd he h => h23 k v hd he (h12 k v hd he h)

theorem add_param_preserves (n : String) (v : PyVal) (r : Rec) (c : Counters) :
    Preserves r (_add_param n v r c).2.1 := by
  intro k w hd _ hget
  unfold _add_param
  split
  · rename_i hnc
    have hk : n ≠ k := by
      intro hnk
      subst hnk
      exact hnc (by simp [dictContains_of_dictGet hget])
    simp only
    rw [dictGet_dictSet_ne _ _ hk]
    exact hget
  · simp only
    rw [dictGet_dictSet_ne _ _ (Ne.symm (dashfree_ne_unique_name hd n (decRepr _)))]
    exact hget

theorem add_exception_preserves (e : PError) (r : Rec) :
    Preserves r (_add_exception e r) := by
  intro k w _ he hget
  unfold _add_exception
  have hne : PNAME_EXCEPTIONS ≠ k := Ne.symm he
  split
  · rw [dictGet_dictSet_ne _ _ hne]; exact hget
  · rw [dictGet_dictSet_ne _ _ hne]; exact hget

theorem report_missing_preserves {p : ParameterType} {cfg : ParserConfig}
    {r : Rec} {c : Counters} {r' : Rec} {c' : Counters}
    (h : report_missing p cfg r c = .ok (r', c')) : Preserves r r' := by
  unfold report_missing at h
  by_cases hm : p.mandatory = true
  · rw [if_pos hm] at h
    simp only [] at h
    by_cases hs : cfg.strict = true
    · rw [if_pos hs] at h
      exact absurd h (by simp)
    · rw [if_neg hs] at h
      simp only [Except.ok.injEq, Prod.mk.injEq] at h
      rcases h with ⟨h1, _⟩
      subst h1
      exact add_exception_preserves _ _
  · rw [if_neg hm] at h
    simp only [Except.ok.injEq, Prod.mk.injEq] at h
    rcases h with ⟨h1, _⟩
    subst h1
    exact Preserves.rfl _

theorem store_or_report_preserves {p : ParameterType} {v : Option PyVal}
    {cfg : ParserConfig} {r : Rec} {c : Counters} {r' : Rec} {c' : Counters}
    (h : store_or_report p v cfg r c = .ok (r', c')) : Preserves r r' := by
  rcases v with _ | v0
  · simp only [store_or_report] at h
    exact report_missing_preserves h
  · simp only [store_or_report] at h
    split at h
    · rcases hap : _add_param p.name v0 r c with ⟨u, r2, c2⟩
      rw [hap] at h
      simp only [Except.ok.injEq, Prod.mk.injEq] at h
      rcases h with ⟨h1, _⟩
      subst h1
      have hp := add_param_preserves p.name v0 r c
      rwa [hap] at hp
    · exact report_missing_preserves h

/-! ### Unfolding equations for the fuelled interpreter

The wrapper functions delegate to the `interp` structure; these `rfl`
lemmas recover the source-shaped recursive equations. -/

theorem interp_psyn (f : Nat) (d : List Nat) (s : List SynElem)
    (cfg : ParserConfig) (r : Rec) (c : Counters) :
    (interp f).psyn d s cfg r c = parse_syntax f d s cfg r c := rfl

theorem interp_sloop (f : Nat) (d : List Nat) (s : List SynElem)
    (cfg : ParserConfig) (ngl : Option Int) (nfo : Int) (r : Rec) (c : Counters) :
    (interp f).sloop d s cfg ngl nfo r c = syntax_loop f d s cfg ngl nfo r c := rfl

theorem interp_sstep (f : Nat) (d : List Nat) (el : SynElem)
    (cfg : ParserConfig) (ngl : Option Int) (nfo : Int) (r : Rec) (c : Counters) :
    (interp f).sstep d el cfg ngl nfo r c = syntax_step f d el cfg ngl nfo r c := rfl

theorem interp_dparam (f : Nat) (d : List Nat) (p : ParameterType)
    (cfg : ParserConfig) (ngl : Option Int) :
    (interp f).dparam d p cfg ngl = decode_param f d p cfg ngl := rfl

theorem interp_gloop (f : Nat) (d : List Nat) (g : List ParameterType)
    (cfg : ParserConfig) (ngl : Option Int) (rgo : Int) (v : List Rec) :
    (interp f).gloop d g cfg ngl rgo v = group_loop f d g cfg ngl rgo v := rfl

theorem interp_ptrip (f : Nat) (d : List Nat) (cfg : ParserConfig) (o : Nat) :
    (interp f).ptrip d cfg o = parse_triplets f d cfg o := rfl

theorem interp_tloop (f : Nat) (d : List Nat) (cfg : ParserConfig) (p i : Nat) :
    (interp f).tloop d cfg p i = triplets_loop f d cfg p i := rfl

theorem interp_pptoca (f : Nat) (d : List Nat) (cfg : ParserConfig) (o : Nat) :
    (interp f).pptoca d cfg o = parse_ptoca f d cfg o := rfl

theorem interp_ploop (f : Nat) (d : List Nat) (cfg : ParserConfig) (p : Nat)
    (ch : Bool) (i : Nat) :
    (interp f).ploop d cfg p ch i = ptoca_loop f d cfg p ch i := rfl

theorem parse_syntax_zero (d : List Nat) (s : List SynElem) (cfg : ParserConfig)
    (r : Rec) (c : Counters) : parse_syntax 0 d s cfg r c = .spin := rfl

theorem parse_syntax_succ (f : Nat) (d : List Nat) (s : List SynElem)
    (cfg : ParserConfig) (r : Rec) (c : Counters) :
    parse_syntax (f+1) d s cfg r c = syntax_loop f d s cfg (some 0) 0 r c := rfl

theorem syntax_loop_nil (f : Nat) (d : List Nat) (cfg : ParserConfig)
    (ngl : Option Int) (nfo : Int) (r : Rec) (c : Counters) :
    syntax_loop f d [] cfg ngl nfo r c = .ok (r, d.length, c) := by
  cases f <;> rfl

theorem syntax_loop_cons_zero (d : List Nat) (el : SynElem) (s : List SynElem)
    (cfg : ParserConfig) (ngl : Option Int) (nfo : Int) (r : Rec) (c : Counters) :
    syntax_loop 0 d (el :: s) cfg ngl nfo r c = .spin := rfl

theorem syntax_loop_cons (f : Nat) (d : List Nat) (el : SynElem) (s : List SynElem)
    (cfg : ParserConfig) (ngl : Option Int) (nfo : Int) (r : Rec) (c : Counters) :
    syntax_loop (f+1) d (el :: s) cfg ngl nfo r c =
      match syntax_step f d el cfg ngl nfo r c with
      | .cont d' ngl' nfo' r' c' => syntax_loop f d' s cfg ngl' nfo' r' c'
      | .stop r' => .ok (r', d.length, c)
      | .fail e => .err e
      | .spin => .spin := rfl

theorem syntax_step_zero (d : List Nat) (el : SynElem) (cfg : ParserConfig)
    (ngl : Option Int) (nfo : Int) (r : Rec) (c : Counters) :
    syntax_step 0 d el cfg ngl nfo r c = .spin := rfl

theorem syntax_step_succ (f : Nat) (d : List Nat) (el : SynElem)
    (cfg : ParserConfig) (ngl : Option Int) (nfo : Int) (r : Rec) (c : Counters) :
    syntax_step (f+1) d el cfg ngl nfo r c =
      syntax_step_body (interp f) d el cfg ngl nfo r c := rfl

theorem syntax_step_P (f : Nat) (d : List Nat) (q : ParameterType)
    (cfg : ParserConfig) (ngl : Option Int) (nfo : Int) (r : Rec) (c : Counters) :
    syntax_step (f+1) d (.P q) cfg ngl nfo r c =
      (match apply_preproc q r with
        | .error e => .fail e
        | .ok none => .cont d ngl nfo r c
        | .ok (some param) =>
          match decode_param f d param cfg ngl with
          | .spin => .spin
          | .err (.EOSWhileReadingError _) =>
            let e := if param.mandatory then
                PError.RequiredParameterMissingError
                  ("Required parameter missing: " ++ param.name)
              else
                PError.IncompleteParameterError
                  ("Not enough data to parse parameter " ++ param.name)
            if cfg.strict then .fail e else .stop (_add_exception e r)
          | .err e => .fail e
          | .ok value data' ngl' =>
            match store_or_report param value cfg r c with
            | .error e => .fail e
            | .ok (result', cnt') =>
              .cont data' ngl' (param.offset + param.length) result' cnt') := rfl

theorem decode_param_zero (d : List Nat) (p : ParameterType) (cfg : ParserConfig)
    (ngl : Option Int) : decode_param 0 d p cfg ngl = .spin := rfl

theorem decode_param_succ (f : Nat) (d : List Nat) (p : ParameterType)
    (cfg : ParserConfig) (ngl : Option Int) :
    decode_param (f+1) d p cfg ngl = decode_param_body (interp f) d p cfg ngl := rfl

theorem group_loop_zero (d : List Nat) (g : List ParameterType) (cfg : ParserConfig)
    (ngl : Option Int) (rgo : Int) (v : List Rec) :
    group_loop 0 d g cfg ngl rgo v = .spin := rfl

theorem group_loop_succ (f : Nat) (d : List Nat) (g : List ParameterType)
    (cfg : ParserConfig) (ngl : Option Int) (rgo : Int) (v : List Rec) :
    group_loop (f+1) d g cfg ngl rgo v = group_loop_body (interp f) d g cfg ngl rgo v := rfl

theorem parse_triplets_zero (d : List Nat) (cfg : ParserConfig) (o : Nat) :
    parse_triplets 0 d cfg o = .spin := rfl

theorem parse_triplets_succ (f : Nat) (d : List Nat) (cfg : ParserConfig) (o : Nat) :
    parse_triplets (f+1) d cfg o = triplets_loop f d cfg o 0 := rfl

theorem triplets_loop_zero (d : List Nat) (cfg : ParserConfig) (p i : Nat) :
    triplets_loop 0 d cfg p i = .spin := rfl

theorem triplets_loop_succ (f : Nat) (d : List Nat) (cfg : ParserConfig) (p i : Nat) :
    triplets_loop (f+1) d cfg p i = triplets_loop_body (interp f) d cfg p i := rfl

theorem parse_ptoca_zero (d : List Nat) (cfg : ParserConfig) (o : Nat) :
    parse_ptoca 0 d cfg o = .spin := rfl

theorem parse_ptoca_succ (f : Nat) (d : List Nat) (cfg : ParserConfig) (o : Nat) :
    parse_ptoca (f+1) d cfg o = ptoca_loop f d cfg o false 0 := rfl

theorem ptoca_loop_zero (d : List Nat) (cfg : ParserConfig) (p : Nat) (ch : Bool)
    (i : Nat) : ptoca_loop 0 d cfg p ch i = .spin := rfl

theorem ptoca_loop_succ (f : Nat) (d : List Nat) (cfg : ParserConfig) (p : Nat)
    (ch : Bool) (i : Nat) :
    ptoca_loop (f+1) d cfg p ch i = ptoca_loop_body (interp f) d cfg p ch i := rfl

theorem syntax_step_preserves_cont :
    ∀ {fuel : Nat} {data : List Nat} {el : SynElem} {cfg : ParserConfig}
      {ngl : Option Int} {nfo : Int} {result : Rec} {cnt : Counters}
      {d' : List Nat} {g' : Option Int} {n' : Int} {r' : Rec} {c' : Counters},
    syntax_step fuel data el cfg ngl nfo result cnt = .cont d' g' n' r' c' →
    Preserves result r' := by
  intro fuel data el cfg ngl nfo result cnt d' g' n' r' c' h
  cases fuel with
  | zero => simp [syntax_step_zero] at h
  | succ f =>
    cases el with
    | G g =>
      rw [syntax_step_succ] at h
      unfold syntax_step_body at h
      dsimp only at h
      split at h
      · exact absurd h (by simp)
      · exact absurd h (by simp)
      · split at h
        · rename_i value rgo heq hlen
          rcases hap : _add_param PNAME_REPEATING_GROUP (.recs value) result cnt
            with ⟨u, r2, c2⟩
          rw [hap] at h
          simp only [StepOut.cont.injEq] at h
          have hp := add_param_preserves PNAME_REPEATING_GROUP (.recs value) result cnt
          rw [hap] at hp
          rcases h with ⟨_, _, _, h4, _⟩
          subst h4
          exact hp
        · simp only [StepOut.cont.injEq] at h
          rcases h with ⟨_, _, _, h4, _⟩
          subst h4
          exact Preserves.rfl _
    | P param0 =>
      rw [syntax_step_succ] at h
      unfold syntax_step_body at h
      dsimp only at h
      split at h
      · exact absurd h (by simp)
      · simp only [StepOut.cont.injEq] at h
        rcases h with ⟨_, _, _, h4, _⟩
        subst h4
        exact Preserves.rfl _
      · split at h
        · exact absurd h (by simp)
        · split at h
          · exact absurd h (by simp)
          · exact absurd h (by simp)
        · exact absurd h (by simp)
        · split at h
          · exact absurd h (by simp)
          · rename_i hsr
            simp only [StepOut.cont.injEq] at h
            rcases h with ⟨_, _, _, h4, _⟩
            subst h4
            exact store_or_report_preserves hsr

theorem syntax_step_preserves_stop :
    ∀ {fuel : Nat} {data : List Nat} {el : SynElem} {cfg : ParserConfig}
      {ngl : Option Int} {nfo : Int} {result : Rec} {cnt : Counters} {r' : Rec},
    syntax_step fuel data el cfg ngl nfo result cnt = .stop r' →
    Preserves result r' := by
  intro fuel data el cfg ngl nfo result cnt r' h
  cases fuel with
  | zero => simp [syntax_step_zero] at h
  | succ f =>
    cases el with
    | G g =>
      rw [syntax_step_succ] at h
      unfold syntax_step_body at h
      dsimp only at h
      split at h
      · exact absurd h (by simp)
      · exact absurd h (by simp)
      · split at h
        · rename_i value rgo heq hlen
          rcases hap : _add_param PNAME_REPEATING_GROUP (.recs value) result cnt
            with ⟨u, r2, c2⟩
          rw [hap] at h
          exact absurd h (by simp)
        · exact absurd h (by simp)
    | P param0 =>
      rw [syntax_step_succ] at h
      unfold syntax_step_body at h
      dsimp only at h
      split at h
      · exact absurd h (by simp)
      · exact absurd h (by simp)
      · split at h
        · exact absurd h (by simp)
        · split at h
          · exact absurd h (by simp)
          · simp only [StepOut.stop.injEq] at h
            subst h
            exact add_exception_preserves _ _
        · exact absurd h (by simp)
        · split at h
          · exact absurd h (by simp)
          · exact absurd h (by simp)

theorem syntax_loop_preserves :
    ∀ {elems : List SynElem} {fuel : Nat} {data : List Nat} {cfg : ParserConfig}
      {ngl : Option Int} {nfo : Int} {result : Rec} {cnt : Counters}
      {result' : Rec} {n : Nat} {cnt' : Counters},
    syntax_loop fuel data elems cfg ngl nfo result cnt = .ok (result', n, cnt') →
    Preserves result result' := by
  intro elems
  induction elems with
  | nil =>
    intro fuel data cfg ngl nfo result cnt result' n cnt' h
    rw [syntax_loop_nil] at h
    simp only [Res.ok.injEq, Prod.mk.injEq] at h
    rcases h with ⟨h1, _⟩
    subst h1
    exact Preserves.rfl _
  | cons el rest ih =>
    intro fuel data cfg ngl nfo result cnt result' n cnt' h
    cases fuel with
    | zero => simp [syntax_loop_cons_zero] at h
    | succ f =>
      rw [syntax_loop_cons] at h
      split at h
      · rename_i heq
        exact Preserves.trans (syntax_step_preserves_cont heq) (ih h)
      · rename_i heq
        simp only [Res.ok.injEq, Prod.mk.injEq] at h
        rcases h with ⟨h1, _⟩
        subst h1
        exact syntax_step_preserves_stop heq
      · exact absurd h (by simp)
      · exact absurd h (by simp)

theorem parse_syntax_preserves :
    ∀ {fuel : Nat} {data : List Nat} {stx : List SynElem} {cfg : ParserConfig}
      {result : Rec} {cnt : Counters} {result' : Rec} {n : Nat} {cnt' : Counters},
    parse_syntax fuel data stx cfg result cnt = .ok (result', n, cnt') →
    Preserves result result' := by
  intro fuel data stx cfg result cnt result' n cnt' h
  cases fuel with
  | zero => simp [parse_syntax_zero] at h
  | succ f =>
    rw [parse_syntax_succ] at h
    exact syntax_loop_preserves h

/-! ### Facts about the byte readers -/

theorem read_bytes_ok_some {f : PFile} {n : Int} {s : List Nat} {f' : PFile}
    (h : read_bytes f n = .ok (some s, f')) :
    f'.pos = f.pos + s.length ∧ (s.length : Int) = n ∧ s.length ≠ 0 ∧ f'.data = f.data := by
  unfold read_bytes PFile.read at h
  simp only [] at h
  split at h <;>
  · split at h
    · exact absurd h (by simp)
    · split at h
      · exact absurd h (by simp)
      · rename_i h0 hn
        simp only [Except.ok.injEq, Prod.mk.injEq, Option.some.injEq] at h
        rcases h with ⟨hs, hf⟩
        subst hs
        rw [← hf]
        refine ⟨rfl, ?_, h0, rfl⟩
        simpa using hn

theorem read_byte_ok_some {f : PFile} {b : Nat} {f' : PFile}
    (h : read_byte f = .ok (some b, f')) :
    f'.pos = f.pos + 1 ∧ f'.data = f.data := by
  unfold read_byte at h
  split at h
  · exact absurd h (by simp)
  · exact absurd h (by simp)
  · rename_i bl f2 heq
    have hb := read_bytes_ok_some heq
    simp only [Except.ok.injEq, Prod.mk.injEq] at h
    rcases h with ⟨_, hf⟩
    subst hf
    refine ⟨?_, hb.2.2.2⟩
    rw [hb.1]
    have h1 : (bl.length : Int) = 1 := hb.2.1
    omega

theorem read_ubin_ok_some {f : PFile} {n : Int} {u : Nat} {f' : PFile}
    (h : read_ubin f n = .ok (some u, f')) :
    (f'.pos : Int) = f.pos + n ∧ f'.data = f.data := by
  unfold read_ubin at h
  split at h
  · exact absurd h (by simp)
  · exact absurd h (by simp)
  · rename_i bl f2 heq
    have hb := read_bytes_ok_some heq
    simp only [Except.ok.injEq, Prod.mk.injEq] at h
    rcases h with ⟨_, hf⟩
    subst hf
    refine ⟨?_, hb.2.2.2⟩
    rw [hb.1]
    push_cast
    rw [← hb.2.1]

/-- Every structured field emitted by `read_structured_field` carries an
`SFTypeID` whose class byte is `0xD3` and an `SFLength` that counts
exactly the on-wire bytes of the field after the `0x5A` carriage-control
byte: the reader consumes `SFLength + 1` bytes in total. -/
theorem read_structured_field_ok_invariant
    {fuel : Nat} {f : PFile} {cfg : ParserConfig} {sf : Rec} {f' : PFile}
    (h : read_structured_field fuel f cfg = .ok (some sf, f')) :
    ∃ (t : Int) (L : Nat),
      dictGet sf PNAME_SF_TYPE_ID = some (.int t) ∧
      (t.toNat &&& 0xFF0000) >>> 16 = MODCA_CLASS_CODE ∧
      dictGet sf PNAME_SF_LENGTH = some (.int (L : Int)) ∧
      3 ≤ L ∧ f'.pos = f.pos + 1 + L := by
  unfold read_structured_field at h
  iterate 60 (all_goals (first | split at h | cases h | dsimp only at h | skip))
  rename_i x7 b2 f1 hrb hcc x6 L f2 hru x5 data x4 r0 bp1 cnt1 hps1 x3 t htid
    hclass x2 fb hfb hpad hunk x1 v hext x0 bp2 cnt2 hps2 hrbytes
  have hpres := parse_syntax_preserves hps2
  have hread1 := read_byte_ok_some hrb
  have hread2 := read_ubin_ok_some hru
  have hread3 := read_bytes_ok_some hrbytes
  refine ⟨t, L, ?_, ?_, ?_, ?_, ?_⟩
  · exact hpres PNAME_SF_TYPE_ID (.int t) (by decide) (by decide) htid
  · exact not_ne_iff.mp hclass
  · exact hpres PNAME_SF_LENGTH (.int (L : Int)) (by decide) (by decide)
      (dictGet_dictSet_self r0 PNAME_SF_LENGTH (.int (L : Int)))
  · rcases hread3 with ⟨_, hlen, hnz, _⟩
    omega
  · rcases hread3 with ⟨hp3, hlen, hnz, _⟩
    rcases hread1 with ⟨hp1, _⟩
    rcases hread2 with ⟨hp2, _⟩
    omega

theorem load_loop_emitted :
    ∀ {fuel : Nat} {f : PFile} {cfg : ParserConfig} {fn : Nat} {acc sfs : List Rec},
      load_loop fuel f cfg fn acc = .ok sfs → ∀ sf ∈ sfs, sf ∈ acc ∨
        ∃ (t : Int) (L : Nat), dictGet sf PNAME_SF_TYPE_ID = some (.int t) ∧
          (t.toNat &&& 0xFF0000) >>> 16 = MODCA_CLASS_CODE ∧
          dictGet sf PNAME_SF_LENGTH = some (.int (L : Int)) := by
  intro fuel
  induction fuel with
  | zero =>
    intro f cfg fn acc sfs h
    simp [load_loop] at h
  | succ fu ih =>
    intro f cfg fn acc sfs h
    simp only [load_loop] at h
    split at h
    · exact absurd h (by simp)
    · exact absurd h (by simp)
    · simp only [LoadRes.ok.injEq] at h
      subst h
      intro sf hsf
      exact Or.inl hsf
    · rename_i sf0 f2 heq
      intro sf hsf
      rcases ih h sf hsf with hacc | hP
      · rcases List.mem_append.mp hacc with hl | hr
        · exact Or.inl hl
        · right
          have hsf0 : sf = sf0 := by simpa using hr
          subst hsf0
          rcases read_structured_field_ok_invariant heq with ⟨t, L, h1, h2, h3, _, _⟩
          exact ⟨t, L, h1, h2, h3⟩
      · exact Or.inr hP

/-! ### Symbolic evaluation of the framing reads -/

theorem read_byte_spec {f : PFile} {b : Nat} {rest : List Nat}
    (h : f.data.drop f.pos = b :: rest) :
    read_byte f = .ok (some b, { f with pos := f.pos + 1 }) := by
  unfold read_byte read_bytes PFile.read
  rw [h]
  simp [List.take_succ_cons]

theorem read_ubin2_spec {f : PFile} {b1 b2 : Nat} {rest : List Nat}
    (h : f.data.drop f.pos = b1 :: b2 :: rest) :
    read_ubin f 2 = .ok (some (b1 <<< 8 + b2), { f with pos := f.pos + 2 }) := by
  unfold read_ubin read_bytes PFile.read
  rw [h]
  simp [List.take_succ_cons, List.foldl]

theorem read_bytes_take_spec {f : PFile} {n : Nat} (h1 : 1 ≤ n)
    (h2 : n ≤ (f.data.drop f.pos).length) :
    read_bytes f (n : Int) = .ok (some ((f.data.drop f.pos).take n),
      { f with pos := f.pos + n }) := by
  have hneg : ¬((n : Int) < 0) := by omega
  have hlen : ((f.data.drop f.pos).take n).length = n := by
    rw [List.length_take]
    omega
  unfold read_bytes PFile.read
  simp only [if_neg hneg, Int.toNat_natCast, hlen]
  rw [if_neg (by omega : ¬(n = 0))]
  rw [if_neg (by simp : ¬((n : Int) ≠ (n : Int)))]

theorem read_structured_field_bad_class
    {fuel : Nat} {f : PFile} {cfg : ParserConfig} {b1 b2 L : Nat} {rest : List Nat}
    {sf0 : Rec} {n : Nat} {cnt : Counters} {t : Int}
    (hdrop : f.data.drop f.pos = 0x5A :: b1 :: b2 :: rest)
    (hLdef : L = b1 <<< 8 + b2)
    (hL : 3 ≤ L)
    (hrest : L - 2 ≤ rest.length)
    (hparse : parse_syntax fuel (rest.take (L - 2)) SYNTAX_SFI cfg [] []
      = .ok (sf0, n, cnt))
    (htid : dictGet (dictSet sf0 PNAME_SF_LENGTH (.int (L : Int))) PNAME_SF_TYPE_ID
      = some (.int t))
    (hclass : (t.toNat &&& 0xFF0000) >>> 16 ≠ MODCA_CLASS_CODE) :
    read_structured_field fuel f cfg = .err (.UnrecognizedIdentifierCodeError
      ("Unrecognized class code 0x" ++ hexReprPad 6 t.toNat
        ++ " - MO:DCA uses class code 0x" ++ hexReprPad 2 MODCA_CLASS_CODE)) := by
  have hdrop1 : f.data.drop (f.pos + 1) = b1 :: b2 :: rest := by
    rw [← List.tail_drop, hdrop]
    rfl
  have hdrop2 : f.data.drop (f.pos + 2) = b2 :: rest := by
    rw [show f.pos + 2 = f.pos + 1 + 1 from by omega, ← List.tail_drop, hdrop1]
    rfl
  have hdrop3 : f.data.drop (f.pos + 3) = rest := by
    rw [show f.pos + 3 = f.pos + 2 + 1 from by omega, ← List.tail_drop, hdrop2]
    rfl
  unfold read_structured_field
  rw [read_byte_spec hdrop]
  simp only []
  rw [if_neg (by decide : ¬((0x5A : Nat) ≠ CARRIAGE_CONTROL_CHAR))]
  rw [read_ubin2_spec (show (({ f with pos := f.pos + 1 } : PFile)).data.drop
    ({ f with pos := f.pos + 1 } : PFile).pos = b1 :: b2 :: rest from hdrop1)]
  simp only []
  rw [← hLdef]
  have hcast : ((L : Nat) : Int) - 2 = ((L - 2 : Nat) : Int) := by omega
  rw [hcast]
  rw [read_bytes_take_spec (show 1 ≤ L - 2 from by omega)
    (show L - 2 ≤ ((({ f with pos := f.pos + 1 + 2 } : PFile)).data.drop
      ({ f with pos := f.pos + 1 + 2 } : PFile).pos).length from by
        simp only []
        rw [show f.pos + 1 + 2 = f.pos + 3 from by omega, hdrop3]
        exact hrest)]
  simp only []
  rw [show (({ f with pos := f.pos + 1 + 2 } : PFile)).data.drop
      ({ f with pos := f.pos + 1 + 2 } : PFile).pos = rest from by
    simp only []
    rw [show f.pos + 1 + 2 = f.pos + 3 from by omega, hdrop3]]
  rw [hparse]
  simp only []
  rw [htid]
  simp only []
  rw [if_pos hclass]

/-! ### Claim C1 -/

/-- Claim C1: every structured-field record emitted by `stream`/`load` has
an `SFTypeID` whose high (class) byte is `0xD3` and an `SFLength` equal to
the on-wire byte length of the field (the field's bytes after the `0x5A`
carriage-control byte: per field the reader consumes exactly
`SFLength + 1` bytes); and when the class byte of the decoded `SFTypeID`
is not `0xD3`, `read_structured_field` raises
`UnrecognizedIdentifierCodeError` — which carries MO:DCA code `0x40` —
instead of returning a record. -/
theorem C1_emitted_class_and_wire_length :
    (∀ (fuel : Nat) (f : PFile) (cfg : ParserConfig) (sfs : List Rec),
      load fuel f cfg = .ok sfs → ∀ sf ∈ sfs, ∃ (t : Int) (L : Nat),
        dictGet sf PNAME_SF_TYPE_ID = some (.int t) ∧
        (t.toNat &&& 0xFF0000) >>> 16 = 0xD3 ∧
        dictGet sf PNAME_SF_LENGTH = some (.int (L : Int))) ∧
    (∀ (fuel : Nat) (f : PFile) (cfg : ParserConfig) (sf : Rec) (f' : PFile),
      read_structured_field fuel f cfg = .ok (some sf, f') → ∃ (t : Int) (L : Nat),
        dictGet sf PNAME_SF_TYPE_ID = some (.int t) ∧
        (t.toNat &&& 0xFF0000) >>> 16 = 0xD3 ∧
        dictGet sf PNAME_SF_LENGTH = some (.int (L : Int)) ∧
        f'.pos = f.pos + 1 + L) ∧
    (∀ (fuel : Nat) (f : PFile) (cfg : ParserConfig) (b1 b2 L : Nat)
       (rest : List Nat) (sf0 : Rec) (n : Nat) (cnt : Counters) (t : Int),
      f.data.drop f.pos = 0x5A :: b1 :: b2 :: rest →
      L = b1 <<< 8 + b2 → 3 ≤ L → L - 2 ≤ rest.length →
      parse_syntax fuel (rest.take (L - 2)) SYNTAX_SFI cfg [] [] = .ok (sf0, n, cnt) →
      dictGet (dictSet sf0 PNAME_SF_LENGTH (.int (L : Int))) PNAME_SF_TYPE_ID
        = some (.int t) →
      (t.toNat &&& 0xFF0000) >>> 16 ≠ 0xD3 →
      ∃ m, read_structured_field fuel f cfg = .err (.UnrecognizedIdentifierCodeError m) ∧
        (PError.UnrecognizedIdentifierCodeError m).modca_code = 0x40) := by
  refine ⟨?_, ?_, ?_⟩
  · intro fuel f cfg sfs h sf hsf
    rcases load_loop_emitted h sf hsf with habs | hP
    · simp at habs
    · exact hP
  · intro fuel f cfg sf f' h
    rcases read_structured_field_ok_invariant h with ⟨t, L, h1, h2, h3, _, h5⟩
    exact ⟨t, L, h1, h2, h3, h5⟩
  · intro fuel f cfg b1 b2 L rest sf0 n cnt t hdrop hLdef hL hrest hparse htid hclass
    exact ⟨_, read_structured_field_bad_class hdrop hLdef hL hrest hparse htid hclass, rfl⟩

/-- Witness for C1: a minimal NOP structured field
(`5A 00 08 D3 EE EE 00 00 00`) is emitted with class byte `0xD3` and
`SFLength = 8` (the reader consumes 9 wire bytes), and the same field
with class byte `0x00` raises the `0x40` unrecognized-identifier-code
error. -/
theorem C1_emitted_class_and_wire_length_witness :
    (∃ (t : Int) (L : Nat),
      dictGet [(PNAME_SF_TYPE_ID, PyVal.int 13889262), (PNAME_FLAG_BYTE, PyVal.int 0),
          ("Reserved", PyVal.bytes [0, 0]), (PNAME_SF_LENGTH, PyVal.int 8)]
        PNAME_SF_TYPE_ID = some (.int t) ∧
      (t.toNat &&& 0xFF0000) >>> 16 = 0xD3 ∧
      dictGet [(PNAME_SF_TYPE_ID, PyVal.int 13889262), (PNAME_FLAG_BYTE, PyVal.int 0),
          ("Reserved", PyVal.bytes [0, 0]), (PNAME_SF_LENGTH, PyVal.int 8)]
        PNAME_SF_LENGTH = some (.int (L : Int)) ∧
      (9 : Nat) = 0 + 1 + L) ∧
    (∃ m, read_structured_field 300
        ⟨[0x5A, 0x00, 0x08, 0x00, 0xEE, 0xEE, 0x00, 0x00, 0x00], 0⟩ {}
        = .err (.UnrecognizedIdentifierCodeError m) ∧
      (PError.UnrecognizedIdentifierCodeError m).modca_code = 0x40) := by
  constructor
  · exact C1_emitted_class_and_wire_length.2.1 300
      ⟨[0x5A, 0x00, 0x08, 0xD3, 0xEE, 0xEE, 0x00, 0x00, 0x00], 0⟩ {}
      [(PNAME_SF_TYPE_ID, PyVal.int 13889262), (PNAME_FLAG_BYTE, PyVal.int 0),
        ("Reserved", PyVal.bytes [0, 0]), (PNAME_SF_LENGTH, PyVal.int 8)]
      ⟨[0x5A, 0x00, 0x08, 0xD3, 0xEE, 0xEE, 0x00, 0x00, 0x00], 9⟩ (by rfl)
  · exact C1_emitted_class_and_wire_length.2.2 300
      ⟨[0x5A, 0x00, 0x08, 0x00, 0xEE, 0xEE, 0x00, 0x00, 0x00], 0⟩ {} 0 8 8
      [0x00, 0xEE, 0xEE, 0x00, 0x00, 0x00]
      [(PNAME_SF_TYPE_ID, PyVal.int 61166), (PNAME_FLAG_BYTE, PyVal.int 0),
        ("Reserved", PyVal.bytes [0, 0])]
      6 [(PNAME_SF_TYPE_ID, 1), (PNAME_FLAG_BYTE, 1), ("Reserved", 1)] 61166
      (by rfl) (by rfl) (by omega) (by simp) (by rfl) (by rfl) (by decide)

/-! ### Claim C3: the triplet loop does not advance on `Tlength = 0` -/

/-- The lenient walk of `SYNTAX_TRIPLET_01` over empty contents succeeds
(both mandatory code parameters are reported missing) at any fuel of at
least 5. -/
theorem t01_ok (g : Nat) :
     parse_syntax (g+5) [] SYNTAX_TRIPLET_01 {} [] [] = .ok (RT01, 0, []) := rfl

/-- At offset 10 of `bodyC3` the triplet loop reads `Tlength = 0` and
never advances: it exhausts any fuel. -/
theorem tloop_c3_spin : ∀ (f : Nat) (i : Nat),
    triplets_loop f bodyC3 {} 10 i = .spin := by
  intro f
  induction f with
  | zero => exact fun _ => rfl
  | succ f' ih =>
    intro i
    rcases f' with _ | _ | _ | _ | _ | g
    · rfl
    · rfl
    · rfl
    · rfl
    · rfl
    · rw [triplets_loop_succ]
      have hred : triplets_loop_body (interp (g+5)) bodyC3 {} 10 i =
          (match parse_syntax (g+5) [] SYNTAX_TRIPLET_01 {} [] [] with
            | .spin => .spin
            | .err e => .err e
            | .ok (t, _, _) =>
              match triplets_loop (g+5) bodyC3 {} 10 (i+1) with
              | .spin => .spin
              | .err e => .err e
              | .ok rest => .ok
                  ((dictSet (dictSet t PNAME_T_LENGTH (.int 0)) PNAME_T_ID (.int 1)) :: rest)) :=
        rfl
      rw [hred, t01_ok g]
      dsimp only
      rw [ih (i+1)]

/-- `parse_triplets` on `bodyC3` at offset 10 exhausts any fuel. -/
theorem ptrip_c3_spin : ∀ f : Nat, parse_triplets f bodyC3 {} 10 = .spin := by
  intro f
  cases f with
  | zero => rfl
  | succ f' =>
    rw [parse_triplets_succ]
    exact tloop_c3_spin f' 0

/-- Decoding the BDT `Triplets` parameter over `bodyC3` exhausts any
fuel. -/
theorem dparam_c3_spin : ∀ f : Nat, decode_param f bodyC3 TP_BDT {} (some 0) = .spin := by
  intro f
  cases f with
  | zero => rfl
  | succ f' =>
    rw [decode_param_succ]
    have hred : decode_param_body (interp f') bodyC3 TP_BDT {} (some 0) =
        (match parse_triplets f' bodyC3 {} 10 with
          | .spin => .spin
          | .err e => .err e
          | .ok ts => .ok (some (.recs ts)) bodyC3 (some 0)) := rfl
    rw [hred, ptrip_c3_spin f']

/-- The walk step for the BDT `Triplets` parameter over `bodyC3` exhausts
any fuel. -/
theorem step_c3_spin : ∀ f : Nat,
    syntax_step f bodyC3 (.P TP_BDT) {} (some 0) 10 R2C3 C2C3 = .spin := by
  intro f
  cases f with
  | zero => rfl
  | succ f' =>
    rw [syntax_step_P]
    have hred : (apply_preproc TP_BDT R2C3) = .ok (some TP_BDT) := rfl
    rw [hred]
    dsimp only
    rw [dparam_c3_spin f']

/-- The whole BDT syntax walk over `bodyC3` exhausts any fuel: the two
leading parameters decode, then the `Triplets` parameter spins. -/
theorem sloop_c3_spin : ∀ g : Nat,
    syntax_loop g bodyC3 SYNTAX_FIELD_BDT {} (some 0) 0 R0C3 C0C3 = .spin := by
  intro g
  rcases g with _ | _ | _ | _ | g
  · rfl
  · rfl
  · rfl
  · rfl
  · have e1 : syntax_loop (g+4) bodyC3 SYNTAX_FIELD_BDT {} (some 0) 0 R0C3 C0C3 =
        syntax_loop (g+3) bodyC3 [.P ⟨8, 2, PTYPE_BYTE, "Reserved", true, none⟩, .P TP_BDT]
          {} (some 0) 8 R1C3 C1C3 := rfl
    have e2 : syntax_loop (g+3) bodyC3
          [.P ⟨8, 2, PTYPE_BYTE, "Reserved", true, none⟩, .P TP_BDT]
          {} (some 0) 8 R1C3 C1C3 =
        syntax_loop (g+2) bodyC3 [.P TP_BDT] {} (some 0) 10 R2C3 C2C3 := rfl
    rw [e1, e2, syntax_loop_cons, step_c3_spin (g+1)]

/-- The BDT field-data parse over `bodyC3` exhausts any fuel. -/
theorem bdt_c3_spin : ∀ f : Nat,
     parse_syntax f bodyC3 SYNTAX_FIELD_BDT {} R0C3 C0C3 = .spin := by
  intro f
  cases f with
  | zero => rfl
  | succ f' =>
    rw [parse_syntax_succ]
    exact sloop_c3_spin f'

/-- Claim C3: refuted (code bug).  The input `wireC3` begins with a
correctly framed structured field (a known BDT field with class byte
`0xD3` and a correct `SFLength`), yet in lenient mode the parser never
terminates on it: its triplet region starts with a `Tlength = 0` header,
the triplet loop advances the cursor by `Tlength` and therefore never
makes progress, so `read_structured_field` exhausts every fuel instead
of emitting a record or raising a fatal error. -/
theorem C3_lenient_totality_refuted : ∀ fuel : Nat,
    read_structured_field fuel ⟨wireC3, 0⟩ {} = .spin := by
  intro fuel
  rcases fuel with _ | _ | _ | _ | _ | _ | _ | g
  · rfl
  · rfl
  · rfl
  · rfl
  · rfl
  · rfl
  · rfl
  · have key : read_structured_field (g+7) ⟨wireC3, 0⟩ {} =
        (match parse_syntax (g+7) bodyC3 SYNTAX_FIELD_BDT {} R0C3 C0C3 with
          | .spin => Res.spin
          | .err e => .err e
          | .ok (sf', _, _) => .ok (some sf', ⟨wireC3, 22⟩)) := rfl
    rw [key, bdt_c3_spin (g+7)]

/-! ### Claim C2: end-of-stream during a parameter decode -/

/-- Claim C2: when decoding a parameter raises end-of-stream, parse_syntax
converts the error — `RequiredParameterMissingError` (MO:DCA code `0x04`)
for a mandatory parameter, `IncompleteParameterError` (code `0x02`) for
an optional one; with `strict` the converted error is raised, without it
the error is appended to the record's `_exceptions` list and the walk
over the remaining syntax elements terminates (the loop returns without
touching `rest`). -/
theorem C2_eos_conversion :
    ∀ (fuel : Nat) (data : List Nat) (param0 param : ParameterType)
      (cfg : ParserConfig) (ngl : Option Int) (nfo : Int) (result : Rec)
      (cnt : Counters) (rest : List SynElem) (msg : String),
    apply_preproc param0 result = .ok (some param) →
    decode_param fuel data param cfg ngl = .err (.EOSWhileReadingError msg) →
    ∃ e : PError,
      e = (if param.mandatory then
            PError.RequiredParameterMissingError
              ("Required parameter missing: " ++ param.name)
          else
            PError.IncompleteParameterError
              ("Not enough data to parse parameter " ++ param.name)) ∧
      e.modca_code = (if param.mandatory then 0x04 else 0x02) ∧
      (cfg.strict = true →
        syntax_loop (fuel+2) data (.P param0 :: rest) cfg ngl nfo result cnt = .err e) ∧
      (cfg.strict = false →
        syntax_loop (fuel+2) data (.P param0 :: rest) cfg ngl nfo result cnt
          = .ok (_add_exception e result, data.length, cnt)) := by
  intro fuel data param0 param cfg ngl nfo result cnt rest msg hpre hdec
  refine ⟨_, rfl, ?_, ?_, ?_⟩
  · cases hm : param.mandatory <;> simp [hm, PError.modca_code]
  · intro hs
    rw [syntax_loop_cons, syntax_step_P, hpre]
    dsimp only
    rw [hdec]
    dsimp only
    rw [hs]
    rw [if_pos rfl]
  · intro hs
    rw [syntax_loop_cons, syntax_step_P, hpre]
    dsimp only
    rw [hdec]
    dsimp only
    rw [hs]
    rw [if_neg (by decide)]

/-- Witness for C2: decoding the 2-byte EBCDIC parameter `Name` over the
1-byte buffer `[0xC1]` raises end-of-stream; instantiating the claim for
the mandatory and for the optional variant of the parameter yields the
`0x04` and the `0x02` conversion respectively. -/
theorem C2_eos_conversion_witness :
    (∃ e : PError,
      e = (if (⟨0, 2, PTYPE_CHAR, "Name", true, none⟩ : ParameterType).mandatory then
            PError.RequiredParameterMissingError ("Required parameter missing: " ++
              (⟨0, 2, PTYPE_CHAR, "Name", true, none⟩ : ParameterType).name)
          else
            PError.IncompleteParameterError ("Not enough data to parse parameter " ++
              (⟨0, 2, PTYPE_CHAR, "Name", true, none⟩ : ParameterType).name)) ∧
      e.modca_code = (if (⟨0, 2, PTYPE_CHAR, "Name", true, none⟩ : ParameterType).mandatory
          then 0x04 else 0x02) ∧
      ((({} : ParserConfig)).strict = true →
        syntax_loop 7 [0xC1] [.P ⟨0, 2, PTYPE_CHAR, "Name", true, none⟩] {} (some 0) 0 [] []
          = .err e) ∧
      ((({} : ParserConfig)).strict = false →
        syntax_loop 7 [0xC1] [.P ⟨0, 2, PTYPE_CHAR, "Name", true, none⟩] {} (some 0) 0 [] []
          = .ok (_add_exception e [], 1, []))) ∧
    (∃ e : PError,
      e = (if (⟨0, 2, PTYPE_CHAR, "Name", false, none⟩ : ParameterType).mandatory then
            PError.RequiredParameterMissingError ("Required parameter missing: " ++
              (⟨0, 2, PTYPE_CHAR, "Name", false, none⟩ : ParameterType).name)
          else
            PError.IncompleteParameterError ("Not enough data to parse parameter " ++
              (⟨0, 2, PTYPE_CHAR, "Name", false, none⟩ : ParameterType).name)) ∧
      e.modca_code = (if (⟨0, 2, PTYPE_CHAR, "Name", false, none⟩ : ParameterType).mandatory
          then 0x04 else 0x02) ∧
      ((({ strict := true } : ParserConfig)).strict = true →
        syntax_loop 7 [0xC1] [.P ⟨0, 2, PTYPE_CHAR, "Name", false, none⟩] { strict := true }
          (some 0) 0 [] [] = .err e) ∧
      ((({ strict := true } : ParserConfig)).strict = false →
        syntax_loop 7 [0xC1] [.P ⟨0, 2, PTYPE_CHAR, "Name", false, none⟩] { strict := true }
          (some 0) 0 [] [] = .ok (_add_exception e [], 1, []))) := by
  constructor
  · exact C2_eos_conversion 5 [0xC1] ⟨0, 2, PTYPE_CHAR, "Name", true, none⟩
      ⟨0, 2, PTYPE_CHAR, "Name", true, none⟩ {} (some 0) 0 [] [] []
      "Out of data while parsing 2 byte(s) from offset 0 of [193]" rfl rfl
  · exact C2_eos_conversion 5 [0xC1] ⟨0, 2, PTYPE_CHAR, "Name", false, none⟩
      ⟨0, 2, PTYPE_CHAR, "Name", false, none⟩ { strict := true } (some 0) 0 [] [] []
      "Out of data while parsing 2 byte(s) from offset 0 of [193]" rfl rfl

/-! ### Claim C4: triplet headers with `Tlength` 0 or 1 -/

/-- Claim C4: refuted (code bug).  A triplet header whose `Tlength` is 1
does not raise a fatal invalid-triplet error: on `[1, 3, 0, 0]` (with
unknown triplets allowed) the body slice `Tlength - 2 = -1` is a Python
negative-length slice, i.e. empty, so the triplet is emitted with
`Tlength = 1` and the loop continues; the parse succeeds with two
triplets and no error.  (And a header with `Tlength = 0` hangs instead
of raising, see the C3 theorem.) -/
theorem C4_tlength_lt_2_not_fatal :
    parse_triplets 20 [1, 3, 0, 0] { allow_unknown_triplets := true } 0 =
      .ok [[(PNAME_EXCEPTIONS, .excs [(4, "0x04 Required parameter missing: Contents")]),
            (PNAME_T_LENGTH, .int 1), (PNAME_T_ID, .int 3)],
           [("Contents", .bytes [0]), (PNAME_T_LENGTH, .int 3), (PNAME_T_ID, .int 0)]] ∧
    ∀ e : PError, parse_triplets 20 [1, 3, 0, 0] { allow_unknown_triplets := true } 0
      ≠ .err e := by
  refine ⟨rfl, ?_⟩
  intro e h
  exact Res.noConfusion h

/-! ### Claim C6: an extension with `ExtLength = 1` -/

/-- Claim C6: refuted (code bug).  For a structured field whose SFI
extension flag is set and whose `ExtLength` byte is 1, the decoded
`ExtData` is not a 0-byte sequence: the extension-data parameter length
becomes `ExtLength - 1 = 0`, and a `parse_bytes` length of 0 means *rest
of the buffer*, so `ExtData` swallows all remaining field bytes (here
`FF FF`). -/
theorem C6_extlength_one :
    read_structured_field 30
        ⟨[0x5A, 0x00, 0x0B, 0xD3, 0xEE, 0xEE, 0x80, 0x00, 0x00, 0x01, 0xFF, 0xFF], 0⟩ {}
      = .ok (some [(PNAME_SF_TYPE_ID, .int 13889262), (PNAME_FLAG_BYTE, .int 128),
          ("Reserved", .bytes [0, 0]), (PNAME_EXT_LENGTH, .int 1),
          (PNAME_EXT_DATA, .bytes [0xFF, 0xFF]), (PNAME_SF_LENGTH, .int 11),
          ("UndfData", .bytes [0xFF, 0xFF])],
        ⟨[0x5A, 0x00, 0x0B, 0xD3, 0xEE, 0xEE, 0x80, 0x00, 0x00, 0x01, 0xFF, 0xFF], 12⟩) ∧
    dictGet [(PNAME_SF_TYPE_ID, PyVal.int 13889262), (PNAME_FLAG_BYTE, PyVal.int 128),
        ("Reserved", PyVal.bytes [0, 0]), (PNAME_EXT_LENGTH, PyVal.int 1),
        (PNAME_EXT_DATA, PyVal.bytes [0xFF, 0xFF]), (PNAME_SF_LENGTH, PyVal.int 11),
        ("UndfData", PyVal.bytes [0xFF, 0xFF])] PNAME_EXT_DATA
      = some (.bytes [0xFF, 0xFF]) ∧
    some (PyVal.bytes [0xFF, 0xFF]) ≠ some (PyVal.bytes ([] : List Nat)) := by
  refine ⟨rfl, rfl, ?_⟩
  simp

/-! ### Claim C7: signed big-endian decode -/

/-- Claim C7: `parse_sbin` decodes big-endian two's-complement at the
requested width: the 3-byte values `FF FF FE`, `80 00 00` and `7F FF FF`
decode to `-2`, `-8388608` and `8388607`. -/
theorem C7_sbin_twos_complement :
    parse_sbin [0xFF, 0xFF, 0xFE] 3 0 = .ok (some (-2)) ∧
    parse_sbin [0x80, 0x00, 0x00] 3 0 = .ok (some (-8388608)) ∧
    parse_sbin [0x7F, 0xFF, 0xFF] 3 0 = .ok (some 8388607) :=
  ⟨rfl, rfl, rfl⟩

/-! ### Claim C8: the 18-byte BDT example -/

/-- Claim C8: corrected.  Parsing
`5A 00 11 D3 A8 A8 00 00 00 C4 D6 C3 4E C1 D4 C5 00 00` yields exactly
one structured-field record with `SFTypeID = 0xD3A8A8`, `SFLength = 17`
and `FlagByte = 0x00` as claimed, but `DocName` decodes to
`"DOC+AME\x00"` (EBCDIC-CP-BE maps `0x4E` to `+`, and the trailing NUL
byte is not stripped), not `"DOCNAME"`; the 9-byte field data is one
byte short of `DocName` (8) plus `Reserved` (2), so the BDT `Reserved`
parameter is reported missing in `_exceptions` and the walk stops:
the record has no `Reserved` BDT entry beyond the introducer's and no
`Triplets` entry at all. -/
theorem C8_bdt_example_record :
    load 30 ⟨[0x5A, 0x00, 0x11, 0xD3, 0xA8, 0xA8, 0x00, 0x00, 0x00,
              0xC4, 0xD6, 0xC3, 0x4E, 0xC1, 0xD4, 0xC5, 0x00, 0x00], 0⟩ {}
      = .ok [[(PNAME_SF_TYPE_ID, .int 13871272), (PNAME_FLAG_BYTE, .int 0),
          ("Reserved", .bytes [0, 0]), (PNAME_SF_LENGTH, .int 17),
          ("DocName", .str "DOC+AME\x00"),
          (PNAME_EXCEPTIONS, .excs [(4, "0x04 Required parameter missing: Reserved")])]] ∧
    dictGet [(PNAME_SF_TYPE_ID, PyVal.int 13871272), (PNAME_FLAG_BYTE, PyVal.int 0),
        ("Reserved", PyVal.bytes [0, 0]), (PNAME_SF_LENGTH, PyVal.int 17),
        ("DocName", PyVal.str "DOC+AME\x00"),
        (PNAME_EXCEPTIONS, PyVal.excs [(4, "0x04 Required parameter missing: Reserved")])]
        "DocName"
      = some (.str "DOC+AME\x00") ∧
    ("DOC+AME\x00" : String) ≠ "DOCNAME" ∧
    dictContains [(PNAME_SF_TYPE_ID, PyVal.int 13871272), (PNAME_FLAG_BYTE, PyVal.int 0),
        ("Reserved", PyVal.bytes [0, 0]), (PNAME_SF_LENGTH, PyVal.int 17),
        ("DocName", PyVal.str "DOC+AME\x00"),
        (PNAME_EXCEPTIONS, PyVal.excs [(4, "0x04 Required parameter missing: Reserved")])]
        PNAME_TRIPLETS
      = false := by
  refine ⟨rfl, rfl, by decide, rfl⟩

/-! ### Claim C5: chained control sequences cannot be final -/

set_option maxHeartbeats 1000000 in
/-- If the PTOCA loop returns a control-sequence list, the final function
of that list is unchained (has an even `TYPE`), and a list returned on
exit with no further data was not exited in a chained state. -/
theorem ptoca_ok_last_unchained :
    ∀ (fuel : Nat) (d : List Nat) (cfg : ParserConfig) (p : Nat) (ch : Bool)
      (i : Nat) (l : List Rec),
    ptoca_loop fuel d cfg p ch i = .ok l →
    (l = [] → ch = false) ∧
    (∀ last, l.getLast? = some last →
      ∃ T : Nat, dictGet last PNAME_CS_TYPE = some (.int (T : Int)) ∧ T % 2 = 0) := by
  intro fuel
  induction fuel with
  | zero =>
    intro d cfg p ch i l h
    exact absurd h (by simp [ptoca_loop_zero])
  | succ f ih =>
    intro d cfg p ch i l h
    rw [ptoca_loop_succ] at h
    unfold ptoca_loop_body at h
    by_cases hp : p < d.length
    · rw [if_pos hp] at h
      dsimp only at h
      iterate 14 (all_goals (first | split at h | cases h | dsimp only at h | skip))
      rename_i escaped p1 heq5 x4 length heq4 x3 fn heq3 hunknown x2 fdata heq2 hnone
        x1 cs bp cnt1 heqsyn x0 rest hrec
      rw [interp_ploop] at hrec
      have hih := ih d cfg (p1 + 2 + length - 2) (chained_function fn) (i+1) rest hrec
      refine ⟨fun hl => absurd hl (by simp), fun last hlast => ?_⟩
      cases rest with
      | nil =>
        have hchf : chained_function fn = false := hih.1 rfl
        simp only [List.getLast?_singleton, Option.some.injEq] at hlast
        subst hlast
        refine ⟨fn, dictGet_dictSet_self _ _ _, ?_⟩
        simp [chained_function, unchained_function] at hchf
        exact hchf
      | cons r rs =>
        rw [List.getLast?_cons_cons] at hlast
        exact hih.2 last hlast
    · rw [if_neg hp] at h
      cases ch with
      | true => rw [if_pos rfl] at h; cases h
      | false =>
        rw [if_neg (by decide)] at h
        cases h
        refine ⟨fun _ => rfl, fun last hlast => ?_⟩
        simp at hlast

/-- Claim C5: if `parse_ptoca` exhausts its input with the last parsed
control sequence chained, it raises the fatal
`invalid-control-sequence` error `Final function is chained`; and in
every control-sequence list it returns successfully the final sequence's
`TYPE` is even (unchained). -/
theorem C5_final_unchained :
    (∀ (fuel : Nat) (d : List Nat) (cfg : ParserConfig) (p i : Nat),
      ¬ p < d.length →
      ptoca_loop (fuel+1) d cfg p true i
        = .err (.InvalidControlSequenceError "Final function is chained")) ∧
    (∀ (fuel : Nat) (d : List Nat) (cfg : ParserConfig) (o : Nat) (l : List Rec)
       (last : Rec),
      parse_ptoca fuel d cfg o = .ok l →
      l.getLast? = some last →
      ∃ T : Nat, dictGet last PNAME_CS_TYPE = some (.int (T : Int)) ∧ T % 2 = 0) := by
  constructor
  · intro fuel d cfg p i hp
    rw [ptoca_loop_succ]
    unfold ptoca_loop_body
    rw [if_neg hp, if_pos rfl]
  · intro fuel d cfg o l last h hlast
    cases fuel with
    | zero => exact absurd h (by simp [parse_ptoca_zero])
    | succ f =>
      rw [parse_ptoca_succ] at h
      exact (ptoca_ok_last_unchained f d cfg o false 0 l h).2 last hlast

/-- Witness for C5: on an empty buffer with the chained flag set the loop
raises `Final function is chained`; and the single TRN control sequence
`2B D3 03 DA C4` parses successfully with final `TYPE = 218`, which is
even. -/
theorem C5_final_unchained_witness :
    ptoca_loop 1 [] {} 0 true 0
      = .err (.InvalidControlSequenceError "Final function is chained") ∧
    ∃ T : Nat, dictGet [("TRNDATA", PyVal.str "D"), (PNAME_CS_LENGTH, PyVal.int 3),
        (PNAME_CS_TYPE, PyVal.int 218)] PNAME_CS_TYPE = some (.int (T : Int)) ∧ T % 2 = 0 := by
  constructor
  · exact C5_final_unchained.1 0 [] {} 0 0 (by decide)
  · exact C5_final_unchained.2 20 [0x2B, 0xD3, 0x03, 0xDA, 0xC4] {} 0
      [[("TRNDATA", .str "D"), (PNAME_CS_LENGTH, .int 3), (PNAME_CS_TYPE, .int 218)]]
      [("TRNDATA", .str "D"), (PNAME_CS_LENGTH, .int 3), (PNAME_CS_TYPE, .int 218)]
      (by rfl) (by rfl)

/-! ### Claim C10: empty-list values are treated as missing -/

/-- Claim C10: a parameter whose decoded value is an empty list (an empty
triplet or control-sequence region, or an empty byte string) is never
stored: `store_or_report` behaves exactly as for an absent value, so a
mandatory parameter is reported with `required-parameter-missing` — raised
in strict mode, appended to `_exceptions` in lenient mode — and in
lenient mode the walk step returns `cont`, continuing with the later
parameters (unlike the end-of-stream conversion, which stops the
walk). -/
theorem C10_empty_list_not_stored :
    (∀ (param : ParameterType) (cfg : ParserConfig) (r : Rec) (c : Counters),
      store_or_report param (some (.recs [])) cfg r c
        = store_or_report param none cfg r c ∧
      store_or_report param (some (.bytes [])) cfg r c
        = store_or_report param none cfg r c) ∧
    (∀ (fuel : Nat) (data : List Nat) (param0 param : ParameterType)
       (cfg : ParserConfig) (ngl : Option Int) (nfo : Int) (r : Rec) (c : Counters)
       (data' : List Nat) (ngl' : Option Int),
      apply_preproc param0 r = .ok (some param) →
      decode_param fuel data param cfg ngl = .ok (some (.recs [])) data' ngl' →
      param.mandatory = true →
      (cfg.strict = true →
        syntax_step (fuel+1) data (.P param0) cfg ngl nfo r c
          = .fail (.RequiredParameterMissingError
              ("Required parameter missing: " ++ param.name))) ∧
      (cfg.strict = false →
        syntax_step (fuel+1) data (.P param0) cfg ngl nfo r c
          = .cont data' ngl' (param.offset + param.length)
              (_add_exception (.RequiredParameterMissingError
                ("Required parameter missing: " ++ param.name)) r) c)) := by
  constructor
  · intro param cfg r c
    exact ⟨rfl, rfl⟩
  · intro fuel data param0 param cfg ngl nfo r c data' ngl' hpre hdec hm
    have hsor : store_or_report param (some (.recs [])) cfg r c
        = report_missing param cfg r c := rfl
    constructor
    · intro hs
      rw [syntax_step_P, hpre]
      dsimp only
      rw [hdec]
      dsimp only
      rw [hsor]
      unfold report_missing
      rw [hm, if_pos rfl]
      dsimp only
      rw [hs, if_pos rfl]
    · intro hs
      rw [syntax_step_P, hpre]
      dsimp only
      rw [hdec]
      dsimp only
      rw [hsor]
      unfold report_missing
      rw [hm, if_pos rfl]
      dsimp only
      rw [hs, if_neg (by decide)]

/-- Witness for C10: an empty `Triplets` region over an empty buffer
decodes to the empty list; the mandatory `Triplets` parameter is then
treated exactly as missing — raised in strict mode, appended to
`_exceptions` with the walk continuing (`cont`) in lenient mode — and
nothing is stored. -/
theorem C10_empty_list_not_stored_witness :
    (store_or_report ⟨0, 0, PTYPE_TRIPLET, PNAME_TRIPLETS, true, none⟩
        (some (.recs [])) {} [] []
      = store_or_report ⟨0, 0, PTYPE_TRIPLET, PNAME_TRIPLETS, true, none⟩ none {} [] []) ∧
    syntax_step 4 [] (.P ⟨0, 0, PTYPE_TRIPLET, PNAME_TRIPLETS, true, none⟩)
        { strict := true } (some 0) 0 [] []
      = .fail (.RequiredParameterMissingError ("Required parameter missing: " ++
          (⟨0, 0, PTYPE_TRIPLET, PNAME_TRIPLETS, true, none⟩ : ParameterType).name)) ∧
    syntax_step 4 [] (.P ⟨0, 0, PTYPE_TRIPLET, PNAME_TRIPLETS, true, none⟩)
        {} (some 0) 0 [] []
      = .cont [] (some 0)
          ((⟨0, 0, PTYPE_TRIPLET, PNAME_TRIPLETS, true, none⟩ : ParameterType).offset +
            (⟨0, 0, PTYPE_TRIPLET, PNAME_TRIPLETS, true, none⟩ : ParameterType).length)
          (_add_exception (.RequiredParameterMissingError ("Required parameter missing: " ++
            (⟨0, 0, PTYPE_TRIPLET, PNAME_TRIPLETS, true, none⟩ : ParameterType).name)) []) [] := by
  refine ⟨?_, ?_, ?_⟩
  · exact (C10_empty_list_not_stored.1
      ⟨0, 0, PTYPE_TRIPLET, PNAME_TRIPLETS, true, none⟩ {} [] []).1
  · exact (C10_empty_list_not_stored.2 3 []
      ⟨0, 0, PTYPE_TRIPLET, PNAME_TRIPLETS, true, none⟩
      ⟨0, 0, PTYPE_TRIPLET, PNAME_TRIPLETS, true, none⟩
      { strict := true } (some 0) 0 [] [] [] (some 0) rfl rfl rfl).1 rfl
  · exact (C10_empty_list_not_stored.2 3 []
      ⟨0, 0, PTYPE_TRIPLET, PNAME_TRIPLETS, true, none⟩
      ⟨0, 0, PTYPE_TRIPLET, PNAME_TRIPLETS, true, none⟩
      {} (some 0) 0 [] [] [] (some 0) rfl rfl rfl).2 rfl

/-! ### Claim C9: name uniquing by `_add_param` -/

theorem dictSet_of_not_contains {α : Type} {r : List (String × α)} {k : String}
    (h : dictContains r k = false) (v : α) : dictSet r k v = r ++ [(k, v)] := by
  simp [dictSet, h]

theorem dictContains_append_left {α : Type} {r s : List (String × α)} {k : String}
    (h : dictContains r k = true) : dictContains (r ++ s) k = true := by
  simp only [dictContains] at h
  simp only [dictContains, List.any_append, h, Bool.true_or]

theorem dictSet_single_replace {α : Type} (k : String) (a v : α) :
    dictSet [(k, a)] k v = [(k, v)] := by
  simp [dictSet, dictContains]

/-- Iterating `_add_param` from a state where the bare name is stored and
counted `j ≥ 1` times and no `name-k`, `k > j`, is yet present: every
further value lands at the end of the record under `name-(j+1)`,
`name-(j+2)`, …, and the counter advances by one per value. -/
theorem add_params_go (name : String) :
    ∀ (vs : List PyVal) (j : Nat) (r : Rec),
    1 ≤ j →
    dictContains r name = true →
    (∀ k, j < k → dictContains r (name ++ "-" ++ decRepr k) = false) →
    add_params name vs r [(name, j)]
      = (r ++ spec_params name (j+1) vs, [(name, j + vs.length)]) := by
  intro vs
  induction vs with
  | nil =>
    intro j r hj hn hf
    simp [add_params, spec_params]
  | cons v rest ih =>
    intro j r hj hn hf
    have hget : dictGet [(name, j)] name = some j := by
      simp [dictGet]
    have hstep : _add_param name v r [(name, j)]
        = (name ++ "-" ++ decRepr (j+1), r ++ [(name ++ "-" ++ decRepr (j+1), v)],
           [(name, j+1)]) := by
      unfold _add_param
      rw [hn, if_neg (by simp)]
      dsimp only
      rw [hget]
      simp only [Option.getD_some]
      rw [dictSet_of_not_contains (hf (j+1) (by omega)), dictSet_single_replace]
    have h0 : add_params name (v :: rest) r [(name, j)]
        = add_params name rest (_add_param name v r [(name, j)]).2.1
            (_add_param name v r [(name, j)]).2.2 := rfl
    rw [h0, hstep]
    dsimp only
    rw [ih (j+1) (r ++ [(name ++ "-" ++ decRepr (j+1), v)]) (by omega)
      (dictContains_append_left hn) ?_]
    · simp only [Prod.mk.injEq]
      constructor
      · rw [List.append_assoc]
        simp only [List.singleton_append, spec_params, nth_param_name,
          if_neg (by omega : ¬ j + 1 = 1)]
      · rw [show j + 1 + rest.length = j + (v :: rest).length from by
          simp only [List.length_cons]; omega]
    · intro k hk
      simp only [dictContains, List.any_append, Bool.or_eq_false_iff]
      constructor
      · exact hf k (by omega)
      · simp only [List.any_cons, List.any_nil, Bool.or_false, beq_eq_false_iff_ne,
          ne_eq]
        intro heq
        have hd := decRepr_injective (unique_name_inj heq)
        omega

/-- The names `spec_params` hands out from occurrence `k ≥ 2` on are
pairwise distinct and all of the dashed `name-m`, `m ≥ k`, form. -/
theorem spec_params_keys (name : String) :
    ∀ (vs : List PyVal) (k : Nat), 2 ≤ k →
    ((spec_params name k vs).map Prod.fst).Nodup ∧
    (∀ s ∈ (spec_params name k vs).map Prod.fst,
      ∃ m, k ≤ m ∧ s = name ++ "-" ++ decRepr m) := by
  intro vs
  induction vs with
  | nil =>
    intro k hk
    exact ⟨List.nodup_nil, by simp [spec_params]⟩
  | cons v rest ih =>
    intro k hk
    have h2 := ih (k+1) (by omega)
    constructor
    · simp only [spec_params, List.map_cons]
      rw [List.nodup_cons]
      refine ⟨?_, h2.1⟩
      intro hmem
      rcases h2.2 _ hmem with ⟨m, hm, hs⟩
      rw [nth_param_name, if_neg (by omega : ¬ k = 1)] at hs
      have hd := decRepr_injective (unique_name_inj hs)
      omega
    · intro s hsmem
      simp only [spec_params, List.map_cons, List.mem_cons] at hsmem
      rcases hsmem with rfl | hsmem
      · exact ⟨k, le_refl k, by rw [nth_param_name, if_neg (by omega : ¬ k = 1)]⟩
      · rcases h2.2 s hsmem with ⟨m, hm, hs⟩
        exact ⟨m, by omega, hs⟩

/-- Claim C9: within one record, repeated insertions of one parameter
name are uniqued exactly as the specification says — the first occurrence
keeps the bare name, the k-th occurrence (k ≥ 2) is stored under
`name-k`, insertion order is preserved, and the resulting keys are
pairwise distinct. -/
theorem C9_unique_param_names :
    ∀ (name : String) (vs : List PyVal),
    (add_params name vs [] []).1 = spec_params name 1 vs ∧
    ((add_params name vs [] []).1.map Prod.fst).Nodup := by
  intro name vs
  have hmain : (add_params name vs [] []).1 = spec_params name 1 vs := by
    cases vs with
    | nil => rfl
    | cons v rest =>
      have h0 : add_params name (v :: rest) [] []
          = add_params name rest [(name, v)] [(name, 1)] := rfl
      rw [h0, add_params_go name rest 1 [(name, v)] (le_refl 1)
        (by simp [dictContains]) ?_]
      · simp [spec_params, nth_param_name]
      · intro k hk
        simp only [dictContains, List.any_cons, List.any_nil, Bool.or_false,
          beq_eq_false_iff_ne, ne_eq]
        exact self_ne_unique_name name (decRepr k)
  refine ⟨hmain, ?_⟩
  rw [hmain]
  cases vs with
  | nil => simp [spec_params]
  | cons v rest =>
    have h2 := spec_params_keys name rest 2 (le_refl 2)
    simp only [spec_params, List.map_cons, nth_param_name, if_pos rfl]
    rw [List.nodup_cons]
    refine ⟨?_, h2.1⟩
    intro hmem
    rcases h2.2 _ hmem with ⟨m, hm, hs⟩
    exact self_ne_unique_name name (decRepr m) hs

/-- Counterexample to the literal C8 claim: on the given input the decoded
`DocName` is not `"DOCNAME"`, and the record has no `Triplets` entry
(empty or otherwise). -/
theorem C8_bdt_example_counterexample :
    load 30 ⟨[0x5A, 0x00, 0x11, 0xD3, 0xA8, 0xA8, 0x00, 0x00, 0x00,
              0xC4, 0xD6, 0xC3, 0x4E, 0xC1, 0xD4, 0xC5, 0x00, 0x00], 0⟩ {}
      = .ok [[(PNAME_SF_TYPE_ID, .int 13871272), (PNAME_FLAG_BYTE, .int 0),
          ("Reserved", .bytes [0, 0]), (PNAME_SF_LENGTH, .int 17),
          ("DocName", .str "DOC+AME\x00"),
          (PNAME_EXCEPTIONS, .excs [(4, "0x04 Required parameter missing: Reserved")])]] ∧
    dictGet [(PNAME_SF_TYPE_ID, PyVal.int 13871272), (PNAME_FLAG_BYTE, PyVal.int 0),
        ("Reserved", PyVal.bytes [0, 0]), (PNAME_SF_LENGTH, PyVal.int 17),
        ("DocName", PyVal.str "DOC+AME\x00"),
        (PNAME_EXCEPTIONS, PyVal.excs [(4, "0x04 Required parameter missing: Reserved")])]
        "DocName"
      ≠ some (.str "DOCNAME") ∧
    dictContains [(PNAME_SF_TYPE_ID, PyVal.int 13871272), (PNAME_FLAG_BYTE, PyVal.int 0),
        ("Reserved", PyVal.bytes [0, 0]), (PNAME_SF_LENGTH, PyVal.int 17),
        ("DocName", PyVal.str "DOC+AME\x00"),
        (PNAME_EXCEPTIONS, PyVal.excs [(4, "0x04 Required parameter missing: Reserved")])]
        PNAME_TRIPLETS
      = false := by
  refine ⟨rfl, ?_, rfl⟩
  intro h
  simp only [show dictGet [(PNAME_SF_TYPE_ID, PyVal.int 13871272),
      (PNAME_FLAG_BYTE, PyVal.int 0), ("Reserved", PyVal.bytes [0, 0]),
      (PNAME_SF_LENGTH, PyVal.int 17), ("DocName", PyVal.str "DOC+AME\x00"),
      (PNAME_EXCEPTIONS, PyVal.excs [(4, "0x04 Required parameter missing: Reserved")])]
      "DocName" = some (PyVal.str "DOC+AME\x00") from rfl,
    Option.some.injEq, PyVal.str.injEq] at h
  exact absurd h (by decide)
